import Mathlib

set_option maxHeartbeats 1600000

/-
Verification of the nl80211 attribute-stream decoding engine.

The byte-level data model, the primitive decoders (src/parse_attr.rs,
src/helpers.rs) and the three record builders (src/interface.rs,
src/bss.rs, src/station.rs) are embedded shallowly below.  Bytes are
natural numbers, Rust `Result` values are `Except NlError`, and a Rust
computation that may also panic is a `RustResult`, whose `panic`
constructor stands for a Rust panic (an `expect`/`unwrap` failure).
-/

namespace Nl80211

/-- Little-endian value of a byte slice, as produced by the Rust
`from_le_bytes` conversions in src/parse_attr.rs and by byteorder's
`read_uNN::<LittleEndian>` calls (bytes are modelled as naturals). -/
def leVal : List Nat → Nat
  | [] => 0
  | b :: rest => b + 256 * leVal rest

/-- Reinterpret the unsigned little-endian value of a `w`-byte slice as a
two's-complement signed integer, the way Rust's `i8::from_le_bytes` and
`i32::from_le_bytes` do. -/
def asSigned (w : Nat) (v : Nat) : Int :=
  if v < 2 ^ (8 * w - 1) then (v : Int) else (v : Int) - 2 ^ (8 * w)

/-- neli's `NlError`, reduced to the cases this crate can produce:
`Msg` is built by `parse_macaddr` via `NlError::Msg(format!(...))`;
`UnexpectedEof` stands for the io error of a byteorder read past the end
of a payload, converted by `?`; `TruncatedBuffer` stands for the
deserialization error of the attribute stream reader on an inconsistent
declared length (spec section 4.2 calls this error kind TruncatedBuffer). -/
inductive NlError where
  | Msg : String → NlError
  | UnexpectedEof : NlError
  | TruncatedBuffer : NlError
deriving DecidableEq

/-- macaddr's `MacAddr` (the 6-octet or the 8-octet form), modelled as the
list of octets it was built from. -/
structure MacAddr where
  octets : List Nat
deriving DecidableEq

/-- One netlink attribute as held by a neli `AttrHandle`: declared total
length, (masked) type tag, payload bytes.  The builders never read
`nla_len`; the field is kept for fidelity to neli's `Nlattr`. -/
structure Nlattr where
  nla_len : Nat
  nla_type : Nat
  payload : List Nat
deriving DecidableEq

/-- Outcome of a Rust computation: a normal value, a recoverable error
propagated with `?`, or a panic (an `expect`/`unwrap` failure). -/
inductive RustResult (α : Type) where
  | ok : α → RustResult α
  | err : NlError → RustResult α
  | panic : RustResult α
deriving DecidableEq

def RustResult.map {α β : Type} (f : α → β) : RustResult α → RustResult β
  | .ok a => .ok (f a)
  | .err e => .err e
  | .panic => .panic

/-- Rust `?` on a `Result`: the error is returned to the caller. -/
def liftResult {α : Type} : Except NlError α → RustResult α
  | .ok a => .ok a
  | .error e => .err e

/-- Calling a Rust function that panics instead of returning an error:
`none` is the panic. -/
def liftPanic {α : Type} : Option α → RustResult α
  | some a => .ok a
  | none => .panic

/-! ## Primitive decoders (src/parse_attr.rs) -/

/-- `parse_i8` from src/parse_attr.rs.  The Rust function converts the
slice with `try_into().expect(...)` and hence panics (`none`) unless the
slice is exactly 1 byte long; the crate's own test
`test_parse_i8_should_panic` asserts the panic. -/
def parse_i8 (input : List Nat) : Option Int :=
  if input.length = 1 then some (asSigned 1 (leVal input)) else none

/-- `parse_u16` from src/parse_attr.rs; panics unless exactly 2 bytes. -/
def parse_u16 (input : List Nat) : Option Nat :=
  if input.length = 2 then some (leVal input) else none

/-- `parse_u32` from src/parse_attr.rs; panics unless exactly 4 bytes. -/
def parse_u32 (input : List Nat) : Option Nat :=
  if input.length = 4 then some (leVal input) else none

/-- `parse_i32` from src/parse_attr.rs; panics unless exactly 4 bytes. -/
def parse_i32 (input : List Nat) : Option Int :=
  if input.length = 4 then some (asSigned 4 (leVal input)) else none

/-- `parse_u64` from src/parse_attr.rs; panics unless exactly 8 bytes. -/
def parse_u64 (input : List Nat) : Option Nat :=
  if input.length = 8 then some (leVal input) else none

/-- `parse_macaddr` from src/helpers.rs (the same function also appears in
src/parse_attr.rs).  The `try_into().expect(...)` conversions sit behind
the two length checks and can never fire, so the function never panics:
it returns the address for a 6- or 8-byte payload and otherwise the
`NlError::Msg(format!("Encountered a {}-byte MAC address", len))` error. -/
def parse_macaddr (input : List Nat) : Except NlError MacAddr :=
  if input.length = 6 then .ok ⟨input⟩
  else if input.length = 8 then .ok ⟨input⟩
  else .error (.Msg ("Encountered a " ++ toString input.length ++ "-byte MAC address"))

/-! ## String decoding (src/helpers.rs `parse_string`)

`String::from_utf8_lossy` is modelled byte by byte following the standard
library's semantics: ASCII and well-formed multi-byte sequences decode to
their scalar value, each maximal invalid subpart is replaced by U+FFFD.
`trim_matches(char::from(0))` trims the NUL character from both ends. -/

/-- Continuation byte test for UTF-8 decoding (0x80..=0xBF). -/
def utf8IsCont (b : Nat) : Bool := 0x80 ≤ b && b ≤ 0xBF

/-- Valid second bytes of a 3-byte UTF-8 sequence, which depend on the
lead byte (excludes overlong encodings and surrogates). -/
def utf8Snd3 (b c : Nat) : Bool :=
  if b = 0xE0 then 0xA0 ≤ c && c ≤ 0xBF
  else if b = 0xED then 0x80 ≤ c && c ≤ 0x9F
  else utf8IsCont c

/-- Valid second bytes of a 4-byte UTF-8 sequence. -/
def utf8Snd4 (b c : Nat) : Bool :=
  if b = 0xF0 then 0x90 ≤ c && c ≤ 0xBF
  else if b = 0xF4 then 0x80 ≤ c && c ≤ 0x8F
  else utf8IsCont c

/-- U+FFFD, the replacement character emitted for invalid encoding. -/
def replChar : Char := Char.ofNat 0xFFFD

/-- Fuelled worker for the lossy UTF-8 decoding; the fuel only serves
termination and never runs out when it starts at the input length. -/
def utf8LossyGo : Nat → List Nat → List Char
  | _, [] => []
  | 0, _ => []
  | f + 1, b :: rest =>
    if b < 0x80 then Char.ofNat b :: utf8LossyGo f rest
    else if b < 0xC2 then replChar :: utf8LossyGo f rest
    else if b ≤ 0xDF then
      match rest with
      | [] => [replChar]
      | c :: r2 =>
        if utf8IsCont c then
          Char.ofNat ((b - 0xC0) * 64 + (c - 0x80)) :: utf8LossyGo f r2
        else replChar :: utf8LossyGo f rest
    else if b ≤ 0xEF then
      match rest with
      | [] => [replChar]
      | c :: r2 =>
        if utf8Snd3 b c then
          match r2 with
          | [] => [replChar]
          | d :: r3 =>
            if utf8IsCont d then
              Char.ofNat (((b - 0xE0) * 64 + (c - 0x80)) * 64 + (d - 0x80)) :: utf8LossyGo f r3
            else replChar :: utf8LossyGo f r2
        else replChar :: utf8LossyGo f rest
    else if b ≤ 0xF4 then
      match rest with
      | [] => [replChar]
      | c :: r2 =>
        if utf8Snd4 b c then
          match r2 with
          | [] => [replChar]
          | d :: r3 =>
            if utf8IsCont d then
              match r3 with
              | [] => [replChar]
              | e :: r4 =>
                if utf8IsCont e then
                  Char.ofNat ((((b - 0xF0) * 64 + (c - 0x80)) * 64 + (d - 0x80)) * 64 + (e - 0x80))
                    :: utf8LossyGo f r4
                else replChar :: utf8LossyGo f r3
            else replChar :: utf8LossyGo f r2
        else replChar :: utf8LossyGo f rest
    else replChar :: utf8LossyGo f rest

/-- Rust's `String::from_utf8_lossy`, as a list of characters. -/
def utf8Lossy (input : List Nat) : List Char :=
  utf8LossyGo input.length input

/-- Rust's `str::trim_matches(c)`: remove the character from both ends of
the string. -/
def trimMatches (c : Char) (s : List Char) : List Char :=
  ((s.dropWhile (· == c)).reverse.dropWhile (· == c)).reverse

/-- `parse_string` from src/helpers.rs: lossy UTF-8 conversion followed by
`trim_matches(char::from(0))`.  Total: it never fails and never panics. -/
def parse_string (input : List Nat) : String :=
  String.mk (trimMatches (Char.ofNat 0) (utf8Lossy input))

/-- Follows the spec's words (section 4.1, string decode), for comparison
with the source's `parse_string`: interpret the payload as text, lossily
replacing invalid encoding, then strip the *trailing* NUL padding bytes. -/
def parse_string_spec (input : List Nat) : String :=
  String.mk (((utf8Lossy input).reverse.dropWhile (· == Char.ofNat 0)).reverse)

/-! ## byteorder reads used by the builders

src/interface.rs and src/bss.rs decode fixed-width fields with
`(&attr.payload[..]).read_uNN::<LittleEndian>()?`: this reads the first
`w` bytes of the payload (ignoring any extra bytes) and fails with an
UnexpectedEof io error, converted by `?`, when fewer than `w` remain. -/

def read_u16 (p : List Nat) : Except NlError Nat :=
  if 2 ≤ p.length then .ok (leVal (p.take 2)) else .error .UnexpectedEof

def read_u32 (p : List Nat) : Except NlError Nat :=
  if 4 ≤ p.length then .ok (leVal (p.take 4)) else .error .UnexpectedEof

def read_i32 (p : List Nat) : Except NlError Int :=
  if 4 ≤ p.length then .ok (asSigned 4 (leVal (p.take 4))) else .error .UnexpectedEof

def read_u64 (p : List Nat) : Except NlError Nat :=
  if 8 ≤ p.length then .ok (leVal (p.take 8)) else .error .UnexpectedEof

/-! ## Attribute type tags

Modelled from the spec: the crate's tag enumerations live in src/attr.rs,
which is declared by src/lib.rs (`mod attr;`) but is not present under
src/; the spec (sections 4.4 and 9) names the tags of each namespace and
the kernel-ABI numeric values are pinned by the byte-level test fixtures
in src/station.rs and src/bss.rs.  Tags are modelled as plain naturals,
one constant set per namespace. -/

namespace Nl80211Attr

def AttrWiphy : Nat := 1
def AttrIfindex : Nat := 3
def AttrIfname : Nat := 4
def AttrMac : Nat := 6
def AttrStaInfo : Nat := 21
def AttrWiphyFreq : Nat := 38
def AttrBss : Nat := 47
def AttrSsid : Nat := 52
def AttrWiphyTxPowerLevel : Nat := 98
def AttrWdev : Nat := 153
def AttrChannelWidth : Nat := 159

end Nl80211Attr

namespace Nl80211Bss

def BssBssid : Nat := 1
def BssFrequency : Nat := 2
def BssBeaconInterval : Nat := 4
def BssSignalMbm : Nat := 7
def BssStatus : Nat := 9
def BssSeenMsAgo : Nat := 10

end Nl80211Bss

namespace Nl80211StaInfo

def StaInfoSignal : Nat := 7
def StaInfoTxBitrate : Nat := 8
def StaInfoRxPackets : Nat := 9
def StaInfoTxPackets : Nat := 10
def StaInfoTxRetries : Nat := 11
def StaInfoTxFailed : Nat := 12
def StaInfoSignalAvg : Nat := 13
def StaInfoRxBitrate : Nat := 14
def StaInfoConnectedTime : Nat := 16
def StaInfoBeaconLoss : Nat := 18

end Nl80211StaInfo

namespace Nl80211RateInfo

def RateInfoBitrate32 : Nat := 5

end Nl80211RateInfo

/-- Round a length up to the next 4-byte alignment boundary (NLA_ALIGN). -/
def nlaAlign (n : Nat) : Nat := (n + 3) / 4 * 4

/-- Modelled from the spec: the Attribute Stream Reader (spec sections 4.2
and 4.3), invoked by the builders through neli's
`Nlattr::get_nested_attributes`; the reader's implementation lives in the
external netlink library, not under src/.  Fuelled worker: read a 2-byte
little-endian total length and a 2-byte type tag (the two protocol flag
bits of the tag are masked off), yield `declared_length - 4` payload
bytes, skip padding up to the next 4-byte boundary, and fail with
`TruncatedBuffer` when a declared length is smaller than the header or
claims more bytes than remain.  The fuel only serves termination and
never runs out when it starts at the buffer length. -/
def parseAttrsGo : Nat → List Nat → Except NlError (List Nlattr)
  | _, [] => .ok []
  | 0, _ :: _ => .error .TruncatedBuffer
  | f + 1, l0 :: l1 :: t0 :: t1 :: rest =>
    let len := l0 + 256 * l1
    let tag := (t0 + 256 * t1) % 16384
    if len < 4 then .error .TruncatedBuffer
    else if rest.length + 4 < len then .error .TruncatedBuffer
    else
      match parseAttrsGo f (rest.drop (nlaAlign len - 4)) with
      | .ok attrs => .ok (⟨len, tag, rest.take (len - 4)⟩ :: attrs)
      | .error e => .error e
  | _ + 1, _ => .error .TruncatedBuffer

/-- Modelled from the spec: the Attribute Stream Reader applied to the
payload of a container attribute (spec section 4.3). -/
def parse_nested (bytes : List Nat) : Except NlError (List Nlattr) :=
  parseAttrsGo bytes.length bytes

/-- Runs a builder's per-attribute body over an attribute sequence in wire
order, mirroring the Rust `for attr in handle.iter()` loops: an `Err`
returned by `?` or a panic aborts the pass immediately. -/
def runFold {α : Type} (step : α → Nlattr → RustResult α) : α → List Nlattr → RustResult α
  | r, [] => .ok r
  | r, a :: l =>
    match step r a with
    | .ok r2 => runFold step r2 l
    | .err e => .err e
    | .panic => .panic

/-! ## Interface builder (src/interface.rs) -/

/-- The `Interface` record; every field is independently optional and
defaults to `None` (`#[derive(Default)]`). -/
structure Interface where
  index : Option Nat := none
  ssid : Option String := none
  mac : Option MacAddr := none
  name : Option String := none
  frequency : Option Nat := none
  channel : Option Nat := none
  power : Option Nat := none
  phy : Option Nat := none
  device : Option Nat := none
deriving DecidableEq

/-- Body of the `for attr in handle.iter()` loop of
`Interface::from_handle` (src/interface.rs): one `match attr.nla_type`
arm per recognized tag, wildcard arm a no-op. -/
def Interface.step (i : Interface) (attr : Nlattr) : RustResult Interface :=
  if attr.nla_type = Nl80211Attr.AttrIfindex then
    (liftResult (read_u32 attr.payload)).map fun v => { i with index := some v }
  else if attr.nla_type = Nl80211Attr.AttrSsid then
    .ok { i with ssid := some (parse_string attr.payload) }
  else if attr.nla_type = Nl80211Attr.AttrMac then
    (liftResult (parse_macaddr attr.payload)).map fun m => { i with mac := some m }
  else if attr.nla_type = Nl80211Attr.AttrIfname then
    .ok { i with name := some (parse_string attr.payload) }
  else if attr.nla_type = Nl80211Attr.AttrWiphyFreq then
    (liftResult (read_u32 attr.payload)).map fun v => { i with frequency := some v }
  else if attr.nla_type = Nl80211Attr.AttrChannelWidth then
    (liftResult (read_u32 attr.payload)).map fun v => { i with channel := some v }
  else if attr.nla_type = Nl80211Attr.AttrWiphyTxPowerLevel then
    (liftResult (read_u32 attr.payload)).map fun v => { i with power := some v }
  else if attr.nla_type = Nl80211Attr.AttrWiphy then
    (liftResult (read_u32 attr.payload)).map fun v => { i with phy := some v }
  else if attr.nla_type = Nl80211Attr.AttrWdev then
    (liftResult (read_u64 attr.payload)).map fun v => { i with device := some v }
  else .ok i

/-- `Interface::from_handle` (src/interface.rs): start from the default
record and apply every attribute in wire order. -/
def Interface.from_handle (handle : List Nlattr) : RustResult Interface :=
  runFold Interface.step {} handle

/-! ## Bss builder (src/bss.rs) -/

/-- The `Bss` record; all fields optional, default `None`. -/
structure Bss where
  bssid : Option MacAddr := none
  frequency : Option Nat := none
  beacon_interval : Option Nat := none
  seen_ms_ago : Option Nat := none
  status : Option Bool := none
  signal : Option Int := none
deriving DecidableEq

/-- Body of the inner `for sub_attr in sub_handle.iter()` loop of
`Bss::from_handle` (src/bss.rs). -/
def Bss.subStep (b : Bss) (sub : Nlattr) : RustResult Bss :=
  if sub.nla_type = Nl80211Bss.BssBeaconInterval then
    (liftResult (read_u16 sub.payload)).map fun v => { b with beacon_interval := some v }
  else if sub.nla_type = Nl80211Bss.BssFrequency then
    (liftResult (read_u32 sub.payload)).map fun v => { b with frequency := some v }
  else if sub.nla_type = Nl80211Bss.BssSeenMsAgo then
    (liftResult (read_u32 sub.payload)).map fun v => { b with seen_ms_ago := some v }
  else if sub.nla_type = Nl80211Bss.BssStatus then
    (liftResult (read_u32 sub.payload)).map fun v => { b with status := some (v != 0) }
  else if sub.nla_type = Nl80211Bss.BssBssid then
    (liftResult (parse_macaddr sub.payload)).map fun m => { b with bssid := some m }
  else if sub.nla_type = Nl80211Bss.BssSignalMbm then
    (liftResult (read_i32 sub.payload)).map fun v => { b with signal := some v }
  else .ok b

/-- Body of the outer loop of `Bss::from_handle`: every top-level tag
other than `AttrBss` is skipped (`continue`); the `AttrBss` payload is
resolved with `get_nested_attributes::<Nl80211Bss>()?` and its
sub-attributes are applied in order. -/
def Bss.step (b : Bss) (attr : Nlattr) : RustResult Bss :=
  if attr.nla_type = Nl80211Attr.AttrBss then
    match parse_nested attr.payload with
    | .error e => .err e
    | .ok subs => runFold Bss.subStep b subs
  else .ok b

/-- `Bss::from_handle` (src/bss.rs). -/
def Bss.from_handle (handle : List Nlattr) : RustResult Bss :=
  runFold Bss.step {} handle

/-! ## Station builder (src/station.rs) -/

/-- The `Station` record; all fields optional, default `None`.  Field
order follows the Rust struct. -/
structure Station where
  average_signal : Option Int := none
  beacon_loss : Option Nat := none
  bssid : Option MacAddr := none
  connected_time : Option Nat := none
  rx_bitrate : Option Nat := none
  rx_packets : Option Nat := none
  signal : Option Int := none
  tx_bitrate : Option Nat := none
  tx_failed : Option Nat := none
  tx_packets : Option Nat := none
  tx_retries : Option Nat := none
deriving DecidableEq

/-- Body of the innermost rate-info loop of `Station::from_handle` for the
`RX_BITRATE` container: only `RateInfoBitrate32` is consulted, decoded
with the panicking `parse_u32`. -/
def Station.rxRateStep (s : Station) (ss : Nlattr) : RustResult Station :=
  if ss.nla_type = Nl80211RateInfo.RateInfoBitrate32 then
    (liftPanic (parse_u32 ss.payload)).map fun v => { s with rx_bitrate := some v }
  else .ok s

/-- Innermost rate-info loop for the `TX_BITRATE` container. -/
def Station.txRateStep (s : Station) (ss : Nlattr) : RustResult Station :=
  if ss.nla_type = Nl80211RateInfo.RateInfoBitrate32 then
    (liftPanic (parse_u32 ss.payload)).map fun v => { s with tx_bitrate := some v }
  else .ok s

/-- Body of the `for sub_attr in sub_handle.iter()` loop of
`Station::from_handle`.  The scalar sub-tags use the panicking
`parse_i8`/`parse_u32` from src/parse_attr.rs; the two bitrate containers
resolve their payload with `get_nested_attributes::<Nl80211RateInfo>()`
followed by `.unwrap()`, which panics on a malformed nested buffer. -/
def Station.subStep (s : Station) (sub : Nlattr) : RustResult Station :=
  if sub.nla_type = Nl80211StaInfo.StaInfoSignal then
    (liftPanic (parse_i8 sub.payload)).map fun v => { s with signal := some v }
  else if sub.nla_type = Nl80211StaInfo.StaInfoSignalAvg then
    (liftPanic (parse_i8 sub.payload)).map fun v => { s with average_signal := some v }
  else if sub.nla_type = Nl80211StaInfo.StaInfoBeaconLoss then
    (liftPanic (parse_u32 sub.payload)).map fun v => { s with beacon_loss := some v }
  else if sub.nla_type = Nl80211StaInfo.StaInfoConnectedTime then
    (liftPanic (parse_u32 sub.payload)).map fun v => { s with connected_time := some v }
  else if sub.nla_type = Nl80211StaInfo.StaInfoRxPackets then
    (liftPanic (parse_u32 sub.payload)).map fun v => { s with rx_packets := some v }
  else if sub.nla_type = Nl80211StaInfo.StaInfoTxPackets then
    (liftPanic (parse_u32 sub.payload)).map fun v => { s with tx_packets := some v }
  else if sub.nla_type = Nl80211StaInfo.StaInfoTxRetries then
    (liftPanic (parse_u32 sub.payload)).map fun v => { s with tx_retries := some v }
  else if sub.nla_type = Nl80211StaInfo.StaInfoTxFailed then
    (liftPanic (parse_u32 sub.payload)).map fun v => { s with tx_failed := some v }
  else if sub.nla_type = Nl80211StaInfo.StaInfoRxBitrate then
    match parse_nested sub.payload with
    | .error _ => .panic
    | .ok subs => runFold Station.rxRateStep s subs
  else if sub.nla_type = Nl80211StaInfo.StaInfoTxBitrate then
    match parse_nested sub.payload with
    | .error _ => .panic
    | .ok subs => runFold Station.txRateStep s subs
  else .ok s

/-- Body of the outer loop of `Station::from_handle`: `AttrMac` decodes
the station address with `parse_macaddr(...)?`; `AttrStaInfo` resolves
its payload with `get_nested_attributes::<Nl80211StaInfo>()?` and applies
the sub-attributes in order; every other tag is skipped. -/
def Station.step (s : Station) (attr : Nlattr) : RustResult Station :=
  if attr.nla_type = Nl80211Attr.AttrMac then
    (liftResult (parse_macaddr attr.payload)).map fun m => { s with bssid := some m }
  else if attr.nla_type = Nl80211Attr.AttrStaInfo then
    match parse_nested attr.payload with
    | .error e => .err e
    | .ok subs => runFold Station.subStep s subs
  else .ok s

/-- `Station::from_handle` (src/station.rs). -/
def Station.from_handle (handle : List Nlattr) : RustResult Station :=
  runFold Station.step {} handle

/-! ## Mapping tables

One membership predicate per builder loop: exactly the tags that have a
`match` arm other than the wildcard in the corresponding source loop. -/

/-- Tags recognized by the `Interface::from_handle` loop. -/
def Interface.recognized (a : Nlattr) : Bool :=
  a.nla_type == Nl80211Attr.AttrIfindex || a.nla_type == Nl80211Attr.AttrSsid ||
  a.nla_type == Nl80211Attr.AttrMac || a.nla_type == Nl80211Attr.AttrIfname ||
  a.nla_type == Nl80211Attr.AttrWiphyFreq || a.nla_type == Nl80211Attr.AttrChannelWidth ||
  a.nla_type == Nl80211Attr.AttrWiphyTxPowerLevel || a.nla_type == Nl80211Attr.AttrWiphy ||
  a.nla_type == Nl80211Attr.AttrWdev

/-- Tags recognized by the outer `Station::from_handle` loop. -/
def Station.recognized (a : Nlattr) : Bool :=
  a.nla_type == Nl80211Attr.AttrMac || a.nla_type == Nl80211Attr.AttrStaInfo

/-- Tags recognized by the outer `Bss::from_handle` loop. -/
def Bss.recognized (a : Nlattr) : Bool :=
  a.nla_type == Nl80211Attr.AttrBss

/-- Sub-tags recognized inside the `BSS` container. -/
def Bss.subRecognized (a : Nlattr) : Bool :=
  a.nla_type == Nl80211Bss.BssBeaconInterval || a.nla_type == Nl80211Bss.BssFrequency ||
  a.nla_type == Nl80211Bss.BssSeenMsAgo || a.nla_type == Nl80211Bss.BssStatus ||
  a.nla_type == Nl80211Bss.BssBssid || a.nla_type == Nl80211Bss.BssSignalMbm

/-- Sub-tags recognized inside the `STA_INFO` container. -/
def Station.subRecognized (a : Nlattr) : Bool :=
  a.nla_type == Nl80211StaInfo.StaInfoSignal || a.nla_type == Nl80211StaInfo.StaInfoSignalAvg ||
  a.nla_type == Nl80211StaInfo.StaInfoBeaconLoss ||
  a.nla_type == Nl80211StaInfo.StaInfoConnectedTime ||
  a.nla_type == Nl80211StaInfo.StaInfoRxPackets || a.nla_type == Nl80211StaInfo.StaInfoTxPackets ||
  a.nla_type == Nl80211StaInfo.StaInfoTxRetries || a.nla_type == Nl80211StaInfo.StaInfoTxFailed ||
  a.nla_type == Nl80211StaInfo.StaInfoRxBitrate || a.nla_type == Nl80211StaInfo.StaInfoTxBitrate

/-- Sub-sub-tags recognized inside a rate-info container. -/
def Station.rateRecognized (a : Nlattr) : Bool :=
  a.nla_type == Nl80211RateInfo.RateInfoBitrate32

/-! ## Concrete wire buffers for the spec's Station scenario (scenario C) -/

/-- Wire encoding of the `STA_INFO` container payload of scenario C:
SIGNAL=-38, SIGNAL_AVG=-41, BEACON_LOSS=0, CONNECTED_TIME=6929,
RX_PACKETS=491746, TX_PACKETS=174601, TX_RETRIES=33307, TX_FAILED=47,
RX_BITRATE{BITRATE32=390}, TX_BITRATE{BITRATE32=1040}. -/
def scenarioCStaInfo : List Nat :=
  [5, 0, 7, 0, 218, 0, 0, 0] ++ [5, 0, 13, 0, 215, 0, 0, 0] ++
  [8, 0, 18, 0, 0, 0, 0, 0] ++ [8, 0, 16, 0, 17, 27, 0, 0] ++
  [8, 0, 9, 0, 226, 128, 7, 0] ++ [8, 0, 10, 0, 9, 170, 2, 0] ++
  [8, 0, 11, 0, 27, 130, 0, 0] ++ [8, 0, 12, 0, 47, 0, 0, 0] ++
  [12, 0, 14, 0, 8, 0, 5, 0, 134, 1, 0, 0] ++ [12, 0, 8, 0, 8, 0, 5, 0, 16, 4, 0, 0]

/-- The attribute handle of scenario C: top-level `MAC=2e:...:2e` plus the
`STA_INFO` container. -/
def scenarioCHandle : List Nlattr :=
  [⟨10, Nl80211Attr.AttrMac, [46, 46, 46, 46, 46, 46]⟩,
   ⟨96, Nl80211Attr.AttrStaInfo, scenarioCStaInfo⟩]

/-- The `Station` record scenario C must decode to. -/
def scenarioCStation : Station :=
  { average_signal := some (-41), beacon_loss := some 0,
    bssid := some ⟨[46, 46, 46, 46, 46, 46]⟩, connected_time := some 6929,
    rx_bitrate := some 390, rx_packets := some 491746, signal := some (-38),
    tx_bitrate := some 1040, tx_failed := some 47, tx_packets := some 174601,
    tx_retries := some 33307 }

end Nl80211

/-! ## General lemmas about `RustResult` and `runFold` -/

namespace Nl80211

theorem RustResult.map_eq_ok {α β : Type} {f : α → β} {x : RustResult α} {b : β}
    (h : x.map f = .ok b) : ∃ a, x = .ok a ∧ b = f a := by
  cases x with
  | ok a => exact ⟨a, rfl, by cases h; rfl⟩
  | err e => simp [RustResult.map] at h
  | panic => simp [RustResult.map] at h

theorem RustResult.map_congr {α β : Type} {f g : α → β} (x : RustResult α)
    (h : ∀ a, f a = g a) : x.map f = x.map g := by
  cases x <;> simp [RustResult.map, h]

theorem RustResult.map_ne_panic {α β : Type} {f : α → β} {x : RustResult α}
    (h : x ≠ .panic) : x.map f ≠ .panic := by
  cases x <;> simp [RustResult.map] at h ⊢

theorem liftResult_eq_ok {α : Type} {x : Except NlError α} {a : α} :
    liftResult x = .ok a ↔ x = .ok a := by
  cases x <;> simp [liftResult]

theorem liftResult_ne_panic {α : Type} (x : Except NlError α) :
    liftResult x ≠ .panic := by
  cases x <;> simp [liftResult]

theorem liftPanic_eq_ok {α : Type} {x : Option α} {a : α} :
    liftPanic x = .ok a ↔ x = some a := by
  cases x <;> simp [liftPanic]

theorem runFold_nil {α : Type} (step : α → Nlattr → RustResult α) (r : α) :
    runFold step r [] = .ok r := rfl

theorem runFold_cons {α : Type} (step : α → Nlattr → RustResult α) (r : α)
    (a : Nlattr) (l : List Nlattr) :
    runFold step r (a :: l) =
      match step r a with
      | .ok r2 => runFold step r2 l
      | .err e => .err e
      | .panic => .panic := rfl

theorem runFold_append {α : Type} (step : α → Nlattr → RustResult α) :
    ∀ (p q : List Nlattr) (r : α),
      runFold step r (p ++ q) =
        match runFold step r p with
        | .ok r2 => runFold step r2 q
        | .err e => .err e
        | .panic => .panic := by
  intro p
  induction p with
  | nil => intro q r; rfl
  | cons a t ih =>
    intro q r
    rw [List.cons_append, runFold_cons, runFold_cons]
    cases step r a with
    | ok r2 => exact ih q r2
    | err e => rfl
    | panic => rfl

theorem runFold_ne_panic {α : Type} {step : α → Nlattr → RustResult α}
    (hstep : ∀ r a, step r a ≠ .panic) :
    ∀ (l : List Nlattr) (r : α), runFold step r l ≠ .panic := by
  intro l
  induction l with
  | nil => intro r h; exact RustResult.noConfusion h
  | cons a t ih =>
    intro r h
    rw [runFold_cons] at h
    cases hs : step r a with
    | ok r2 => rw [hs] at h; exact ih r2 h
    | err e => rw [hs] at h; exact RustResult.noConfusion h
    | panic => exact hstep r a hs

theorem runFold_filter {α : Type} {step : α → Nlattr → RustResult α}
    {q : Nlattr → Bool} (hskip : ∀ r a, q a = false → step r a = .ok r) :
    ∀ (l : List Nlattr) (r : α), runFold step r l = runFold step r (l.filter q) := by
  intro l
  induction l with
  | nil => intro r; rfl
  | cons a t ih =>
    intro r
    cases hq : q a with
    | true =>
      rw [List.filter_cons_of_pos hq, runFold_cons, runFold_cons]
      cases step r a with
      | ok r2 => exact ih r2
      | err e => rfl
      | panic => rfl
    | false =>
      rw [List.filter_cons_of_neg (by simp [hq]), runFold_cons, hskip r a hq]
      exact ih r

/-- Last occurrence wins: if every attribute selected by `q` overwrites
the projected field with a value computed from the attribute alone, and
no other attribute touches the field, then after a successful pass the
field holds the decode of the last `q`-attribute in wire order. -/
theorem runFold_last_wins {α β : Type} {step : α → Nlattr → RustResult α}
    {q : Nlattr → Bool} {proj : α → Option β} {dec : Nlattr → β}
    (hset : ∀ r r2 x, q x = true → step r x = .ok r2 → proj r2 = some (dec x))
    (hkeep : ∀ r r2 x, q x = false → step r x = .ok r2 → proj r2 = proj r) :
    ∀ (l : List Nlattr) (r0 r : α) (x : Nlattr),
      runFold step r0 l = .ok r → (l.filter q).getLast? = some x →
      proj r = some (dec x) := by
  intro l
  induction l using List.reverseRecOn with
  | nil => intro r0 r x _ hlast; simp at hlast
  | append_singleton t y ih =>
    intro r0 r x hrun hlast
    rw [runFold_append] at hrun
    cases hp : runFold step r0 t with
    | ok r1 =>
      rw [hp] at hrun
      replace hrun : runFold step r1 [y] = .ok r := hrun
      rw [runFold_cons] at hrun
      cases hs : step r1 y with
      | ok r2 =>
        rw [hs] at hrun
        replace hrun : runFold step r2 [] = .ok r := hrun
        rw [runFold_nil] at hrun
        cases hrun
        cases hq : q y with
        | true =>
          rw [List.filter_append, List.filter_cons_of_pos hq] at hlast
          simp only [List.filter_nil, List.getLast?_concat] at hlast
          cases hlast
          exact hset r1 r y hq hs
        | false =>
          rw [List.filter_append, List.filter_cons_of_neg (by simp [hq])] at hlast
          simp only [List.filter_nil, List.append_nil] at hlast
          rw [hkeep r1 r y hq hs]
          exact ih r0 r1 x hp hlast
      | err e => rw [hs] at hrun; exact RustResult.noConfusion hrun
      | panic => rw [hs] at hrun; exact RustResult.noConfusion hrun
    | err e => rw [hp] at hrun; exact RustResult.noConfusion hrun
    | panic => rw [hp] at hrun; exact RustResult.noConfusion hrun

theorem read_u16_eq_ok {p : List Nat} {v : Nat} :
    read_u16 p = .ok v ↔ 2 ≤ p.length ∧ v = leVal (p.take 2) := by
  unfold read_u16; split <;> simp_all [eq_comm]

theorem read_u32_eq_ok {p : List Nat} {v : Nat} :
    read_u32 p = .ok v ↔ 4 ≤ p.length ∧ v = leVal (p.take 4) := by
  unfold read_u32; split <;> simp_all [eq_comm]

theorem read_i32_eq_ok {p : List Nat} {v : Int} :
    read_i32 p = .ok v ↔ 4 ≤ p.length ∧ v = asSigned 4 (leVal (p.take 4)) := by
  unfold read_i32; split <;> simp_all [eq_comm]

theorem read_u64_eq_ok {p : List Nat} {v : Nat} :
    read_u64 p = .ok v ↔ 8 ≤ p.length ∧ v = leVal (p.take 8) := by
  unfold read_u64; split <;> simp_all [eq_comm]

theorem parse_macaddr_eq_ok {p : List Nat} {m : MacAddr} :
    parse_macaddr p = .ok m ↔ (p.length = 6 ∨ p.length = 8) ∧ m = ⟨p⟩ := by
  unfold parse_macaddr
  split <;> rename_i h6
  · simp [h6, eq_comm]
  · split <;> rename_i h8
    · simp [h6, h8, eq_comm]
    · simp [h6, h8]

end Nl80211

/-! ## Lemmas about the primitive decoders and the builder loop bodies -/

namespace Nl80211

theorem parse_i8_eq_some {p : List Nat} {v : Int} :
    parse_i8 p = some v ↔ p.length = 1 ∧ v = asSigned 1 (leVal p) := by
  unfold parse_i8; split <;> simp_all [eq_comm]

theorem parse_u32_eq_some {p : List Nat} {v : Nat} :
    parse_u32 p = some v ↔ p.length = 4 ∧ v = leVal p := by
  unfold parse_u32; split <;> simp_all [eq_comm]

theorem runFold_preserves {α β : Type} {step : α → Nlattr → RustResult α} {proj : α → β}
    (hstep : ∀ r r2 a, step r a = .ok r2 → proj r2 = proj r) :
    ∀ (l : List Nlattr) (r r2 : α), runFold step r l = .ok r2 → proj r2 = proj r := by
  intro l
  induction l with
  | nil => intro r r2 h; cases h; rfl
  | cons a t ih =>
    intro r r2 h
    rw [runFold_cons] at h
    cases hs : step r a with
    | ok r1 => rw [hs] at h; exact (ih r1 r2 h).trans (hstep r r1 a hs)
    | err e => rw [hs] at h; exact RustResult.noConfusion h
    | panic => rw [hs] at h; exact RustResult.noConfusion h

/-! ### Interface loop body -/

theorem interface_step_ok_effect {r r2 : Interface} {x : Nlattr}
    (h : Interface.step r x = .ok r2) :
    (x.nla_type = Nl80211Attr.AttrIfindex ∧
      r2 = { r with index := some (leVal (x.payload.take 4)) }) ∨
    (x.nla_type = Nl80211Attr.AttrSsid ∧
      r2 = { r with ssid := some (parse_string x.payload) }) ∨
    (x.nla_type = Nl80211Attr.AttrMac ∧ r2 = { r with mac := some ⟨x.payload⟩ }) ∨
    (x.nla_type = Nl80211Attr.AttrIfname ∧
      r2 = { r with name := some (parse_string x.payload) }) ∨
    (x.nla_type = Nl80211Attr.AttrWiphyFreq ∧
      r2 = { r with frequency := some (leVal (x.payload.take 4)) }) ∨
    (x.nla_type = Nl80211Attr.AttrChannelWidth ∧
      r2 = { r with channel := some (leVal (x.payload.take 4)) }) ∨
    (x.nla_type = Nl80211Attr.AttrWiphyTxPowerLevel ∧
      r2 = { r with power := some (leVal (x.payload.take 4)) }) ∨
    (x.nla_type = Nl80211Attr.AttrWiphy ∧
      r2 = { r with phy := some (leVal (x.payload.take 4)) }) ∨
    (x.nla_type = Nl80211Attr.AttrWdev ∧
      r2 = { r with device := some (leVal (x.payload.take 8)) }) ∨
    (Interface.recognized x = false ∧ r2 = r) := by
  unfold Interface.step at h
  split_ifs at h with h1 h2 h3 h4 h5 h6 h7 h8 h9
  · obtain ⟨v, hv, rfl⟩ := RustResult.map_eq_ok h
    obtain ⟨hlen, rfl⟩ := read_u32_eq_ok.mp (liftResult_eq_ok.mp hv)
    exact Or.inl ⟨h1, rfl⟩
  · injection h with h0; subst h0
    exact Or.inr (Or.inl ⟨h2, rfl⟩)
  · obtain ⟨v, hv, rfl⟩ := RustResult.map_eq_ok h
    obtain ⟨hlen, rfl⟩ := (parse_macaddr_eq_ok.mp (liftResult_eq_ok.mp hv))
    exact Or.inr (Or.inr (Or.inl ⟨h3, rfl⟩))
  · injection h with h0; subst h0
    exact Or.inr (Or.inr (Or.inr (Or.inl ⟨h4, rfl⟩)))
  · obtain ⟨v, hv, rfl⟩ := RustResult.map_eq_ok h
    obtain ⟨hlen, rfl⟩ := read_u32_eq_ok.mp (liftResult_eq_ok.mp hv)
    exact Or.inr (Or.inr (Or.inr (Or.inr (Or.inl ⟨h5, rfl⟩))))
  · obtain ⟨v, hv, rfl⟩ := RustResult.map_eq_ok h
    obtain ⟨hlen, rfl⟩ := read_u32_eq_ok.mp (liftResult_eq_ok.mp hv)
    exact Or.inr (Or.inr (Or.inr (Or.inr (Or.inr (Or.inl ⟨h6, rfl⟩)))))
  · obtain ⟨v, hv, rfl⟩ := RustResult.map_eq_ok h
    obtain ⟨hlen, rfl⟩ := read_u32_eq_ok.mp (liftResult_eq_ok.mp hv)
    exact Or.inr (Or.inr (Or.inr (Or.inr (Or.inr (Or.inr (Or.inl ⟨h7, rfl⟩))))))
  · obtain ⟨v, hv, rfl⟩ := RustResult.map_eq_ok h
    obtain ⟨hlen, rfl⟩ := read_u32_eq_ok.mp (liftResult_eq_ok.mp hv)
    exact Or.inr (Or.inr (Or.inr (Or.inr (Or.inr (Or.inr (Or.inr (Or.inl ⟨h8, rfl⟩)))))))
  · obtain ⟨v, hv, rfl⟩ := RustResult.map_eq_ok h
    obtain ⟨hlen, rfl⟩ := read_u64_eq_ok.mp (liftResult_eq_ok.mp hv)
    exact Or.inr (Or.inr (Or.inr (Or.inr (Or.inr (Or.inr (Or.inr (Or.inr (Or.inl ⟨h9, rfl⟩))))))))
  · injection h with h0; subst h0
    refine Or.inr (Or.inr (Or.inr (Or.inr (Or.inr (Or.inr (Or.inr (Or.inr (Or.inr ⟨?_, rfl⟩)))))))) 
    simp [Interface.recognized, h1, h2, h3, h4, h5, h6, h7, h8, h9]

theorem interface_step_skip (r : Interface) (a : Nlattr)
    (h : Interface.recognized a = false) : Interface.step r a = .ok r := by
  unfold Interface.step
  split_ifs with h1 h2 h3 h4 h5 h6 h7 h8 h9
  all_goals first | rfl | simp_all [Interface.recognized]

theorem interface_step_ne_panic (r : Interface) (a : Nlattr) :
    Interface.step r a ≠ .panic := by
  unfold Interface.step
  split_ifs
  all_goals first
    | exact RustResult.map_ne_panic (liftResult_ne_panic _)
    | exact fun hc => RustResult.noConfusion hc

end Nl80211

/-! ### Bss loop bodies -/

namespace Nl80211

theorem bss_subStep_ok_effect {b b2 : Bss} {x : Nlattr}
    (h : Bss.subStep b x = .ok b2) :
    (x.nla_type = Nl80211Bss.BssBeaconInterval ∧
      b2 = { b with beacon_interval := some (leVal (x.payload.take 2)) }) ∨
    (x.nla_type = Nl80211Bss.BssFrequency ∧
      b2 = { b with frequency := some (leVal (x.payload.take 4)) }) ∨
    (x.nla_type = Nl80211Bss.BssSeenMsAgo ∧
      b2 = { b with seen_ms_ago := some (leVal (x.payload.take 4)) }) ∨
    (x.nla_type = Nl80211Bss.BssStatus ∧
      b2 = { b with status := some (leVal (x.payload.take 4) != 0) }) ∨
    (x.nla_type = Nl80211Bss.BssBssid ∧ b2 = { b with bssid := some ⟨x.payload⟩ }) ∨
    (x.nla_type = Nl80211Bss.BssSignalMbm ∧
      b2 = { b with signal := some (asSigned 4 (leVal (x.payload.take 4))) }) ∨
    (Bss.subRecognized x = false ∧ b2 = b) := by
  unfold Bss.subStep at h
  split_ifs at h with h1 h2 h3 h4 h5 h6
  · obtain ⟨v, hv, rfl⟩ := RustResult.map_eq_ok h
    obtain ⟨hlen, rfl⟩ := read_u16_eq_ok.mp (liftResult_eq_ok.mp hv)
    exact Or.inl ⟨h1, rfl⟩
  · obtain ⟨v, hv, rfl⟩ := RustResult.map_eq_ok h
    obtain ⟨hlen, rfl⟩ := read_u32_eq_ok.mp (liftResult_eq_ok.mp hv)
    exact Or.inr (Or.inl ⟨h2, rfl⟩)
  · obtain ⟨v, hv, rfl⟩ := RustResult.map_eq_ok h
    obtain ⟨hlen, rfl⟩ := read_u32_eq_ok.mp (liftResult_eq_ok.mp hv)
    exact Or.inr (Or.inr (Or.inl ⟨h3, rfl⟩))
  · obtain ⟨v, hv, rfl⟩ := RustResult.map_eq_ok h
    obtain ⟨hlen, rfl⟩ := read_u32_eq_ok.mp (liftResult_eq_ok.mp hv)
    exact Or.inr (Or.inr (Or.inr (Or.inl ⟨h4, rfl⟩)))
  · obtain ⟨v, hv, rfl⟩ := RustResult.map_eq_ok h
    obtain ⟨hlen, rfl⟩ := parse_macaddr_eq_ok.mp (liftResult_eq_ok.mp hv)
    exact Or.inr (Or.inr (Or.inr (Or.inr (Or.inl ⟨h5, rfl⟩))))
  · obtain ⟨v, hv, rfl⟩ := RustResult.map_eq_ok h
    obtain ⟨hlen, rfl⟩ := read_i32_eq_ok.mp (liftResult_eq_ok.mp hv)
    exact Or.inr (Or.inr (Or.inr (Or.inr (Or.inr (Or.inl ⟨h6, rfl⟩)))))
  · injection h with h0; subst h0
    refine Or.inr (Or.inr (Or.inr (Or.inr (Or.inr (Or.inr ⟨?_, rfl⟩)))))
    simp [Bss.subRecognized, h1, h2, h3, h4, h5, h6]

theorem bss_subStep_skip (b : Bss) (a : Nlattr)
    (h : Bss.subRecognized a = false) : Bss.subStep b a = .ok b := by
  unfold Bss.subStep
  split_ifs with h1 h2 h3 h4 h5 h6
  all_goals first | rfl | simp_all [Bss.subRecognized]

theorem bss_subStep_ne_panic (b : Bss) (a : Nlattr) : Bss.subStep b a ≠ .panic := by
  unfold Bss.subStep
  split_ifs
  all_goals first
    | exact RustResult.map_ne_panic (liftResult_ne_panic _)
    | exact fun hc => RustResult.noConfusion hc

theorem bss_step_skip (b : Bss) (a : Nlattr)
    (h : Bss.recognized a = false) : Bss.step b a = .ok b := by
  unfold Bss.step
  split_ifs with h1
  · simp_all [Bss.recognized]
  · rfl

theorem bss_step_ne_panic (b : Bss) (a : Nlattr) : Bss.step b a ≠ .panic := by
  unfold Bss.step
  split_ifs
  · cases hn : parse_nested a.payload with
    | error e => simp
    | ok subs => simp only []; exact runFold_ne_panic bss_subStep_ne_panic subs b
  · exact fun hc => RustResult.noConfusion hc

end Nl80211

/-! ### Station loop bodies -/

namespace Nl80211

theorem station_rxRateStep_ok_effect {s s2 : Station} {x : Nlattr}
    (h : Station.rxRateStep s x = .ok s2) :
    (x.nla_type = Nl80211RateInfo.RateInfoBitrate32 ∧
      s2 = { s with rx_bitrate := some (leVal x.payload) }) ∨
    (Station.rateRecognized x = false ∧ s2 = s) := by
  unfold Station.rxRateStep at h
  split_ifs at h with h1
  · obtain ⟨v, hv, rfl⟩ := RustResult.map_eq_ok h
    obtain ⟨hlen, rfl⟩ := parse_u32_eq_some.mp (liftPanic_eq_ok.mp hv)
    exact Or.inl ⟨h1, rfl⟩
  · injection h with h0; subst h0
    exact Or.inr ⟨by simp [Station.rateRecognized, h1], rfl⟩

theorem station_txRateStep_ok_effect {s s2 : Station} {x : Nlattr}
    (h : Station.txRateStep s x = .ok s2) :
    (x.nla_type = Nl80211RateInfo.RateInfoBitrate32 ∧
      s2 = { s with tx_bitrate := some (leVal x.payload) }) ∨
    (Station.rateRecognized x = false ∧ s2 = s) := by
  unfold Station.txRateStep at h
  split_ifs at h with h1
  · obtain ⟨v, hv, rfl⟩ := RustResult.map_eq_ok h
    obtain ⟨hlen, rfl⟩ := parse_u32_eq_some.mp (liftPanic_eq_ok.mp hv)
    exact Or.inl ⟨h1, rfl⟩
  · injection h with h0; subst h0
    exact Or.inr ⟨by simp [Station.rateRecognized, h1], rfl⟩

theorem runFold_rxRate_only :
    ∀ (l : List Nlattr) (s s2 : Station),
      runFold Station.rxRateStep s l = .ok s2 →
      s2 = { s with rx_bitrate := s2.rx_bitrate } := by
  intro l
  induction l with
  | nil => intro s s2 h; cases h; rfl
  | cons a t ih =>
    intro s s2 h
    rw [runFold_cons] at h
    cases hs : Station.rxRateStep s a with
    | ok s1 =>
      rw [hs] at h
      have h2 := ih s1 s2 h
      rcases station_rxRateStep_ok_effect hs with ⟨_, rfl⟩ | ⟨_, rfl⟩
      · exact h2
      · exact h2
    | err e => rw [hs] at h; exact RustResult.noConfusion h
    | panic => rw [hs] at h; exact RustResult.noConfusion h

theorem runFold_txRate_only :
    ∀ (l : List Nlattr) (s s2 : Station),
      runFold Station.txRateStep s l = .ok s2 →
      s2 = { s with tx_bitrate := s2.tx_bitrate } := by
  intro l
  induction l with
  | nil => intro s s2 h; cases h; rfl
  | cons a t ih =>
    intro s s2 h
    rw [runFold_cons] at h
    cases hs : Station.txRateStep s a with
    | ok s1 =>
      rw [hs] at h
      have h2 := ih s1 s2 h
      rcases station_txRateStep_ok_effect hs with ⟨_, rfl⟩ | ⟨_, rfl⟩
      · exact h2
      · exact h2
    | err e => rw [hs] at h; exact RustResult.noConfusion h
    | panic => rw [hs] at h; exact RustResult.noConfusion h

theorem station_subStep_ok_effect {s s2 : Station} {x : Nlattr}
    (h : Station.subStep s x = .ok s2) :
    (x.nla_type = Nl80211StaInfo.StaInfoSignal ∧
      s2 = { s with signal := some (asSigned 1 (leVal x.payload)) }) ∨
    (x.nla_type = Nl80211StaInfo.StaInfoSignalAvg ∧
      s2 = { s with average_signal := some (asSigned 1 (leVal x.payload)) }) ∨
    (x.nla_type = Nl80211StaInfo.StaInfoBeaconLoss ∧
      s2 = { s with beacon_loss := some (leVal x.payload) }) ∨
    (x.nla_type = Nl80211StaInfo.StaInfoConnectedTime ∧
      s2 = { s with connected_time := some (leVal x.payload) }) ∨
    (x.nla_type = Nl80211StaInfo.StaInfoRxPackets ∧
      s2 = { s with rx_packets := some (leVal x.payload) }) ∨
    (x.nla_type = Nl80211StaInfo.StaInfoTxPackets ∧
      s2 = { s with tx_packets := some (leVal x.payload) }) ∨
    (x.nla_type = Nl80211StaInfo.StaInfoTxRetries ∧
      s2 = { s with tx_retries := some (leVal x.payload) }) ∨
    (x.nla_type = Nl80211StaInfo.StaInfoTxFailed ∧
      s2 = { s with tx_failed := some (leVal x.payload) }) ∨
    (x.nla_type = Nl80211StaInfo.StaInfoRxBitrate ∧
      s2 = { s with rx_bitrate := s2.rx_bitrate }) ∨
    (x.nla_type = Nl80211StaInfo.StaInfoTxBitrate ∧
      s2 = { s with tx_bitrate := s2.tx_bitrate }) ∨
    (Station.subRecognized x = false ∧ s2 = s) := by
  unfold Station.subStep at h
  split_ifs at h with h1 h2 h3 h4 h5 h6 h7 h8 h9 h10
  · obtain ⟨v, hv, rfl⟩ := RustResult.map_eq_ok h
    obtain ⟨hlen, rfl⟩ := parse_i8_eq_some.mp (liftPanic_eq_ok.mp hv)
    exact Or.inl ⟨h1, rfl⟩
  · obtain ⟨v, hv, rfl⟩ := RustResult.map_eq_ok h
    obtain ⟨hlen, rfl⟩ := parse_i8_eq_some.mp (liftPanic_eq_ok.mp hv)
    exact Or.inr (Or.inl ⟨h2, rfl⟩)
  · obtain ⟨v, hv, rfl⟩ := RustResult.map_eq_ok h
    obtain ⟨hlen, rfl⟩ := parse_u32_eq_some.mp (liftPanic_eq_ok.mp hv)
    exact Or.inr (Or.inr (Or.inl ⟨h3, rfl⟩))
  · obtain ⟨v, hv, rfl⟩ := RustResult.map_eq_ok h
    obtain ⟨hlen, rfl⟩ := parse_u32_eq_some.mp (liftPanic_eq_ok.mp hv)
    exact Or.inr (Or.inr (Or.inr (Or.inl ⟨h4, rfl⟩)))
  · obtain ⟨v, hv, rfl⟩ := RustResult.map_eq_ok h
    obtain ⟨hlen, rfl⟩ := parse_u32_eq_some.mp (liftPanic_eq_ok.mp hv)
    exact Or.inr (Or.inr (Or.inr (Or.inr (Or.inl ⟨h5, rfl⟩))))
  · obtain ⟨v, hv, rfl⟩ := RustResult.map_eq_ok h
    obtain ⟨hlen, rfl⟩ := parse_u32_eq_some.mp (liftPanic_eq_ok.mp hv)
    exact Or.inr (Or.inr (Or.inr (Or.inr (Or.inr (Or.inl ⟨h6, rfl⟩)))))
  · obtain ⟨v, hv, rfl⟩ := RustResult.map_eq_ok h
    obtain ⟨hlen, rfl⟩ := parse_u32_eq_some.mp (liftPanic_eq_ok.mp hv)
    exact Or.inr (Or.inr (Or.inr (Or.inr (Or.inr (Or.inr (Or.inl ⟨h7, rfl⟩))))))
  · obtain ⟨v, hv, rfl⟩ := RustResult.map_eq_ok h
    obtain ⟨hlen, rfl⟩ := parse_u32_eq_some.mp (liftPanic_eq_ok.mp hv)
    exact Or.inr (Or.inr (Or.inr (Or.inr (Or.inr (Or.inr (Or.inr (Or.inl ⟨h8, rfl⟩)))))))
  · cases hn : parse_nested x.payload with
    | error e => rw [hn] at h; exact RustResult.noConfusion h
    | ok subs =>
      rw [hn] at h
      exact Or.inr (Or.inr (Or.inr (Or.inr (Or.inr (Or.inr (Or.inr (Or.inr (Or.inl
        ⟨h9, runFold_rxRate_only subs s s2 h⟩))))))))
  · cases hn : parse_nested x.payload with
    | error e => rw [hn] at h; exact RustResult.noConfusion h
    | ok subs =>
      rw [hn] at h
      exact Or.inr (Or.inr (Or.inr (Or.inr (Or.inr (Or.inr (Or.inr (Or.inr (Or.inr (Or.inl
        ⟨h10, runFold_txRate_only subs s s2 h⟩)))))))))
  · injection h with h0; subst h0
    refine Or.inr (Or.inr (Or.inr (Or.inr (Or.inr (Or.inr (Or.inr (Or.inr (Or.inr (Or.inr
      ⟨?_, rfl⟩)))))))))
    simp [Station.subRecognized, h1, h2, h3, h4, h5, h6, h7, h8, h9, h10]

theorem station_subStep_skip (s : Station) (a : Nlattr)
    (h : Station.subRecognized a = false) : Station.subStep s a = .ok s := by
  unfold Station.subStep
  split_ifs with h1 h2 h3 h4 h5 h6 h7 h8 h9 h10
  · simp only [Station.subRecognized, h1, beq_self_eq_true, Bool.true_or, Bool.or_true,
      Bool.true_eq_false] at h
  · simp only [Station.subRecognized, h2, beq_self_eq_true, Bool.true_or, Bool.or_true,
      Bool.true_eq_false] at h
  · simp only [Station.subRecognized, h3, beq_self_eq_true, Bool.true_or, Bool.or_true,
      Bool.true_eq_false] at h
  · simp only [Station.subRecognized, h4, beq_self_eq_true, Bool.true_or, Bool.or_true,
      Bool.true_eq_false] at h
  · simp only [Station.subRecognized, h5, beq_self_eq_true, Bool.true_or, Bool.or_true,
      Bool.true_eq_false] at h
  · simp only [Station.subRecognized, h6, beq_self_eq_true, Bool.true_or, Bool.or_true,
      Bool.true_eq_false] at h
  · simp only [Station.subRecognized, h7, beq_self_eq_true, Bool.true_or, Bool.or_true,
      Bool.true_eq_false] at h
  · simp only [Station.subRecognized, h8, beq_self_eq_true, Bool.true_or, Bool.or_true,
      Bool.true_eq_false] at h
  · simp only [Station.subRecognized, h9, beq_self_eq_true, Bool.true_or, Bool.or_true,
      Bool.true_eq_false] at h
  · simp only [Station.subRecognized, h10, beq_self_eq_true, Bool.true_or, Bool.or_true,
      Bool.true_eq_false] at h
  · rfl

theorem station_subStep_bssid {s s2 : Station} {a : Nlattr}
    (h : Station.subStep s a = .ok s2) : s2.bssid = s.bssid := by
  rcases station_subStep_ok_effect h with
    ⟨_, rfl⟩ | ⟨_, rfl⟩ | ⟨_, rfl⟩ | ⟨_, rfl⟩ | ⟨_, rfl⟩ | ⟨_, rfl⟩ | ⟨_, rfl⟩ | ⟨_, rfl⟩ |
    ⟨_, hr⟩ | ⟨_, hr⟩ | ⟨_, rfl⟩
  · rfl
  · rfl
  · rfl
  · rfl
  · rfl
  · rfl
  · rfl
  · rfl
  · rw [hr]
  · rw [hr]
  · rfl

theorem station_step_ok_effect {s s2 : Station} {x : Nlattr}
    (h : Station.step s x = .ok s2) :
    (x.nla_type = Nl80211Attr.AttrMac ∧ s2 = { s with bssid := some ⟨x.payload⟩ }) ∨
    (x.nla_type = Nl80211Attr.AttrStaInfo ∧ s2.bssid = s.bssid) ∨
    (Station.recognized x = false ∧ s2 = s) := by
  unfold Station.step at h
  split_ifs at h with h1 h2
  · obtain ⟨v, hv, rfl⟩ := RustResult.map_eq_ok h
    obtain ⟨hlen, rfl⟩ := parse_macaddr_eq_ok.mp (liftResult_eq_ok.mp hv)
    exact Or.inl ⟨h1, rfl⟩
  · cases hn : parse_nested x.payload with
    | error e => rw [hn] at h; exact RustResult.noConfusion h
    | ok subs =>
      rw [hn] at h
      exact Or.inr (Or.inl ⟨h2,
        runFold_preserves (fun r r2 a hr => station_subStep_bssid hr) subs s s2 h⟩)
  · injection h with h0; subst h0
    exact Or.inr (Or.inr ⟨by simp [Station.recognized, h1, h2], rfl⟩)

theorem station_step_skip (s : Station) (a : Nlattr)
    (h : Station.recognized a = false) : Station.step s a = .ok s := by
  unfold Station.step
  split_ifs with h1 h2
  all_goals first | rfl | simp_all [Station.recognized]

end Nl80211

/-! ### Lemmas about `trimMatches` -/

namespace Nl80211

theorem dropWhile_replicate_decomp (c : Char) :
    ∀ l : List Char, ∃ a, l = List.replicate a c ++ l.dropWhile (· == c) := by
  intro l
  induction l with
  | nil => exact ⟨0, rfl⟩
  | cons x t ih =>
    cases hx : x == c with
    | true =>
      obtain ⟨a, ha⟩ := ih
      have hx2 : x = c := eq_of_beq hx
      refine ⟨a + 1, ?_⟩
      simp only [List.dropWhile_cons, hx, if_true, List.replicate_succ, List.cons_append]
      rw [hx2, ← ha]
    | false =>
      refine ⟨0, ?_⟩
      simp [List.dropWhile_cons, hx]

theorem head?_dropWhile_ne (c : Char) :
    ∀ l : List Char, (l.dropWhile (· == c)).head? ≠ some c := by
  intro l
  induction l with
  | nil => simp
  | cons x t ih =>
    cases hx : x == c with
    | true => simpa [List.dropWhile_cons, hx] using ih
    | false =>
      simp only [List.dropWhile_cons, hx]
      simp only [Bool.false_eq_true, if_false, List.head?_cons, ne_eq, Option.some.injEq]
      intro hxc
      rw [hxc] at hx
      simp at hx

theorem getLast?_dropWhile_of_ne_nil (p : Char → Bool) :
    ∀ l : List Char, l.dropWhile p ≠ [] →
      (l.dropWhile p).getLast? = l.getLast? := by
  intro l
  induction l with
  | nil => intro h; rfl
  | cons x t ih =>
    intro h
    cases hx : p x with
    | true =>
      rw [List.dropWhile_cons] at h ⊢
      simp only [hx, if_true] at h ⊢
      cases ht : t with
      | nil => rw [ht] at h; simp at h
      | cons y ys =>
        rw [← ht]
        rw [ih h, ht, List.getLast?_cons_cons]
    | false =>
      rw [List.dropWhile_cons] at h ⊢
      simp only [hx, Bool.false_eq_true, if_false] at h ⊢

theorem trim_decomp (c : Char) (l : List Char) :
    ∃ a b, l = List.replicate a c ++ trimMatches c l ++ List.replicate b c ∧
      (trimMatches c l).head? ≠ some c ∧ (trimMatches c l).getLast? ≠ some c := by
  obtain ⟨a, ha⟩ := dropWhile_replicate_decomp c l
  obtain ⟨b, hb⟩ := dropWhile_replicate_decomp c (l.dropWhile (· == c)).reverse
  have htrim : trimMatches c l = ((l.dropWhile (· == c)).reverse.dropWhile (· == c)).reverse := rfl
  have hm : l.dropWhile (· == c) =
      ((l.dropWhile (· == c)).reverse.dropWhile (· == c)).reverse ++ List.replicate b c := by
    have h2 := congrArg List.reverse hb
    rw [List.reverse_reverse, List.reverse_append, List.reverse_replicate] at h2
    exact h2
  refine ⟨a, b, ?_, ?_, ?_⟩
  · rw [htrim, List.append_assoc, ← hm, ← ha]
  · rw [htrim, List.head?_reverse]
    cases hte : (l.dropWhile (· == c)).reverse.dropWhile (· == c) with
    | nil => simp [hte]
    | cons y ys =>
      rw [← hte]
      rw [getLast?_dropWhile_of_ne_nil (· == c) (l.dropWhile (· == c)).reverse
        (by rw [hte]; simp)]
      rw [List.getLast?_reverse]
      exact head?_dropWhile_ne c l
  · rw [htrim, List.getLast?_reverse]
    exact head?_dropWhile_ne c (l.dropWhile (· == c)).reverse

end Nl80211

/-! ## Claim theorems -/

namespace Nl80211

/-- C9: the Station builder, given the scenario C buffer (top-level
MAC=2e:2e:2e:2e:2e:2e plus a STA_INFO container holding SIGNAL=-38,
SIGNAL_AVG=-41, BEACON_LOSS=0, CONNECTED_TIME=6929, RX_PACKETS=491746,
TX_PACKETS=174601, TX_RETRIES=33307, TX_FAILED=47, and the nested
RX_BITRATE containers with BITRATE32=390 and TX_BITRATE with
BITRATE32=1040), returns exactly the corresponding Station record; the
bitrate values come from the three-level nesting through BITRATE32. -/
theorem c9_station_scenario :
    Station.from_handle scenarioCHandle = .ok scenarioCStation := by decide

/-- C10: on an empty attribute sequence each of the three builders
succeeds and returns the default record in which every optional field is
None. -/
theorem c10_empty_handle_defaults :
    Interface.from_handle [] =
      .ok ⟨none, none, none, none, none, none, none, none, none⟩ ∧
    Bss.from_handle [] = .ok ⟨none, none, none, none, none, none⟩ ∧
    Station.from_handle [] =
      .ok ⟨none, none, none, none, none, none, none, none, none, none, none⟩ :=
  ⟨rfl, rfl, rfl⟩

/-- C2, counterexample: the fixed-width primitive decoders do not return
a `LengthMismatch` error result on a slice of the wrong length - they
panic (`none` in the embedding models the Rust panic; the inputs below
are the ones the crate's own `should_panic` tests pin down).  The claim
as stated (an ordinary error result, never a panic) is therefore false:
the Rust functions return bare values and have no error channel at all. -/
theorem c2_counterexample :
    parse_i8 [8, 0] = none ∧ parse_u16 [1, 0, 0] = none ∧
    parse_u32 [1, 0, 0] = none ∧ parse_i32 [1, 0, 0, 0, 0] = none ∧
    parse_u64 [1, 0, 0] = none := by
  refine ⟨rfl, rfl, rfl, rfl, rfl⟩

/-- C2, amended: for every width w in {1,2,4,8} the corresponding decoder
succeeds on a byte slice of length exactly w (returning its little-endian
value, two's-complement for the signed variants), and on a slice of any
other length it panics - it never silently ignores extra or missing
bytes, but the failure is a panic, not a `LengthMismatch` error result. -/
theorem c2_fixed_width_decoders :
    (∀ l : List Nat, parse_i8 l = none ↔ l.length ≠ 1) ∧
    (∀ l : List Nat, parse_u16 l = none ↔ l.length ≠ 2) ∧
    (∀ l : List Nat, parse_u32 l = none ↔ l.length ≠ 4) ∧
    (∀ l : List Nat, parse_i32 l = none ↔ l.length ≠ 4) ∧
    (∀ l : List Nat, parse_u64 l = none ↔ l.length ≠ 8) ∧
    (∀ l : List Nat, l.length = 1 → parse_i8 l = some (asSigned 1 (leVal l))) ∧
    (∀ l : List Nat, l.length = 2 → parse_u16 l = some (leVal l)) ∧
    (∀ l : List Nat, l.length = 4 → parse_u32 l = some (leVal l)) ∧
    (∀ l : List Nat, l.length = 4 → parse_i32 l = some (asSigned 4 (leVal l))) ∧
    (∀ l : List Nat, l.length = 8 → parse_u64 l = some (leVal l)) := by
  refine ⟨?_, ?_, ?_, ?_, ?_, ?_, ?_, ?_, ?_, ?_⟩
  · intro l; unfold parse_i8; split <;> simp_all
  · intro l; unfold parse_u16; split <;> simp_all
  · intro l; unfold parse_u32; split <;> simp_all
  · intro l; unfold parse_i32; split <;> simp_all
  · intro l; unfold parse_u64; split <;> simp_all
  · intro l h; unfold parse_i8; rw [if_pos h]
  · intro l h; unfold parse_u16; rw [if_pos h]
  · intro l h; unfold parse_u32; rw [if_pos h]
  · intro l h; unfold parse_i32; rw [if_pos h]
  · intro l h; unfold parse_u64; rw [if_pos h]

/-- C2, witness for the amended theorem at concrete inputs. -/
theorem c2_fixed_width_decoders_witness :
    ([8] : List Nat).length = 1 ∧ parse_i8 [8] = some 8 ∧
    (([8, 0] : List Nat).length ≠ 1 ↔ parse_i8 [8, 0] = none) :=
  ⟨rfl, c2_fixed_width_decoders.2.2.2.2.2.1 [8] rfl,
    (c2_fixed_width_decoders.1 [8, 0]).symm⟩

/-- C3: `parse_macaddr` succeeds exactly on slices of length 6 or 8; on
every other length it returns the invalid-address-length error carrying
the actual length (the `NlError::Msg` whose text is produced from the
length), and it never panics (its result type in the embedding has no
panic outcome: the conversions behind the length checks cannot fail). -/
theorem c3_parse_macaddr_lengths (input : List Nat) :
    ((∃ m, parse_macaddr input = .ok m) ↔ (input.length = 6 ∨ input.length = 8)) ∧
    (input.length ≠ 6 → input.length ≠ 8 →
      parse_macaddr input =
        .error (.Msg ("Encountered a " ++ toString input.length ++ "-byte MAC address"))) := by
  constructor
  · constructor
    · rintro ⟨m, hm⟩
      exact (parse_macaddr_eq_ok.mp hm).1
    · intro h
      exact ⟨⟨input⟩, parse_macaddr_eq_ok.mpr ⟨h, rfl⟩⟩
  · intro h6 h8
    unfold parse_macaddr
    rw [if_neg h6, if_neg h8]

/-- C3, witness at the 5-byte input from the spec's malformed-input
example. -/
theorem c3_parse_macaddr_lengths_witness :
    ([1, 2, 3, 4, 5] : List Nat).length ≠ 6 ∧ ([1, 2, 3, 4, 5] : List Nat).length ≠ 8 ∧
    parse_macaddr [1, 2, 3, 4, 5] = .error (.Msg "Encountered a 5-byte MAC address") := by
  refine ⟨by decide, by decide, ?_⟩
  have h := (c3_parse_macaddr_lengths [1, 2, 3, 4, 5]).2 (by decide) (by decide)
  simpa using h

end Nl80211

namespace Nl80211

theorem station_rxRateStep_skip (s : Station) (a : Nlattr)
    (h : Station.rateRecognized a = false) : Station.rxRateStep s a = .ok s := by
  unfold Station.rxRateStep
  split_ifs with h1
  · simp only [Station.rateRecognized, h1, beq_self_eq_true, Bool.true_eq_false] at h
  · rfl

theorem station_txRateStep_skip (s : Station) (a : Nlattr)
    (h : Station.rateRecognized a = false) : Station.txRateStep s a = .ok s := by
  unfold Station.txRateStep
  split_ifs with h1
  · simp only [Station.rateRecognized, h1, beq_self_eq_true, Bool.true_eq_false] at h
  · rfl

/-- C5: an attribute whose tag is not in a builder's mapping table is
skipped without error, at every nesting level: the result of a pass is
the result of the same pass with all unrecognized attributes removed, so
an unknown tag never aborts the build and never changes how the
recognized attributes decode. -/
theorem c5_unknown_tags_skipped :
    (∀ h : List Nlattr,
      Interface.from_handle h = Interface.from_handle (h.filter Interface.recognized)) ∧
    (∀ h : List Nlattr,
      Station.from_handle h = Station.from_handle (h.filter Station.recognized)) ∧
    (∀ h : List Nlattr,
      Bss.from_handle h = Bss.from_handle (h.filter Bss.recognized)) ∧
    (∀ (b : Bss) (subs : List Nlattr),
      runFold Bss.subStep b subs = runFold Bss.subStep b (subs.filter Bss.subRecognized)) ∧
    (∀ (s : Station) (subs : List Nlattr),
      runFold Station.subStep s subs =
        runFold Station.subStep s (subs.filter Station.subRecognized)) ∧
    (∀ (s : Station) (subs : List Nlattr),
      runFold Station.rxRateStep s subs =
        runFold Station.rxRateStep s (subs.filter Station.rateRecognized)) ∧
    (∀ (s : Station) (subs : List Nlattr),
      runFold Station.txRateStep s subs =
        runFold Station.txRateStep s (subs.filter Station.rateRecognized)) := by
  refine ⟨?_, ?_, ?_, ?_, ?_, ?_, ?_⟩
  · intro h; exact runFold_filter interface_step_skip h {}
  · intro h; exact runFold_filter station_step_skip h {}
  · intro h; exact runFold_filter bss_step_skip h {}
  · intro b subs; exact runFold_filter bss_subStep_skip subs b
  · intro s subs; exact runFold_filter station_subStep_skip subs s
  · intro s subs; exact runFold_filter station_rxRateStep_skip subs s
  · intro s subs; exact runFold_filter station_txRateStep_skip subs s

/-- C1, counterexample: a Station buffer whose RX_BITRATE container
payload is malformed (the nested buffer `[1,0,0,0]` declares a 1-byte
total length, smaller than a header) makes `Station::from_handle` panic
through the `.unwrap()` on `get_nested_attributes`, instead of returning
the error: the claim that every decode failure is returned as an
ordinary recoverable result and the process never panics is false. -/
theorem c1_counterexample :
    Station.from_handle
      [⟨12, Nl80211Attr.AttrStaInfo, [8, 0, 14, 0, 1, 0, 0, 0]⟩] = .panic := by decide

/-- C1, amended: the Interface and Bss builders never panic - every
decode failure there is returned as an ordinary error result; the
Station builder returns an error result for a bad top-level MAC address
length and for a truncated STA_INFO container, but it panics (instead of
returning an error) on a wrong-length fixed-width sub-attribute payload
(for example SIGNAL) and on a malformed RX_BITRATE nested buffer. -/
theorem c1_error_propagation :
    (∀ h : List Nlattr, Interface.from_handle h ≠ .panic) ∧
    (∀ h : List Nlattr, Bss.from_handle h ≠ .panic) ∧
    (∀ (a : Nlattr) (rest : List Nlattr), a.nla_type = Nl80211Attr.AttrMac →
      a.payload.length ≠ 6 → a.payload.length ≠ 8 →
      Station.from_handle (a :: rest) =
        .err (.Msg ("Encountered a " ++ toString a.payload.length ++ "-byte MAC address"))) ∧
    (∀ (a : Nlattr) (rest : List Nlattr) (e : NlError),
      a.nla_type = Nl80211Attr.AttrStaInfo → parse_nested a.payload = .error e →
      Station.from_handle (a :: rest) = .err e) ∧
    (∀ (s : Station) (n : Nat) (p : List Nat), p.length ≠ 1 →
      Station.subStep s ⟨n, Nl80211StaInfo.StaInfoSignal, p⟩ = .panic) ∧
    (∀ (s : Station) (n : Nat) (p : List Nat) (e : NlError), parse_nested p = .error e →
      Station.subStep s ⟨n, Nl80211StaInfo.StaInfoRxBitrate, p⟩ = .panic) := by
  refine ⟨?_, ?_, ?_, ?_, ?_, ?_⟩
  · intro h; exact runFold_ne_panic interface_step_ne_panic h {}
  · intro h; exact runFold_ne_panic bss_step_ne_panic h {}
  · intro a rest hmac h6 h8
    have hpm : parse_macaddr a.payload =
        .error (.Msg ("Encountered a " ++ toString a.payload.length ++ "-byte MAC address")) := by
      unfold parse_macaddr
      rw [if_neg h6, if_neg h8]
    show runFold Station.step {} (a :: rest) = _
    rw [runFold_cons]
    unfold Station.step
    rw [if_pos hmac, hpm]
    rfl
  · intro a rest e hsta hn
    show runFold Station.step {} (a :: rest) = _
    rw [runFold_cons]
    unfold Station.step
    rw [if_neg (by rw [hsta]; decide), if_pos hsta, hn]
  · intro s n p hlen
    have hp : parse_i8 p = none := by unfold parse_i8; rw [if_neg hlen]
    unfold Station.subStep
    rw [if_pos rfl, hp]
    rfl
  · intro s n p e hn
    unfold Station.subStep
    dsimp only
    rw [if_neg (by decide), if_neg (by decide), if_neg (by decide), if_neg (by decide),
      if_neg (by decide), if_neg (by decide), if_neg (by decide), if_neg (by decide),
      if_pos rfl, hn]

/-- C1, witness: the hypotheses of the amended theorem discharged at
concrete inputs - a 5-byte MAC payload yields the error result, a
2-byte SIGNAL payload and a truncated RX_BITRATE nested buffer panic. -/
theorem c1_error_propagation_witness :
    Station.from_handle [Nlattr.mk 9 6 [1, 2, 3, 4, 5]] =
      .err (.Msg "Encountered a 5-byte MAC address") ∧
    Station.subStep {} ⟨0, Nl80211StaInfo.StaInfoSignal, [1, 2]⟩ = .panic ∧
    Station.subStep {} ⟨0, Nl80211StaInfo.StaInfoRxBitrate, [1, 0, 0, 0]⟩ = .panic := by
  refine ⟨?_, ?_, ?_⟩
  · have h := c1_error_propagation.2.2.1 (Nlattr.mk 9 6 [1, 2, 3, 4, 5]) [] rfl
      (by decide) (by decide)
    exact h.trans (by decide)
  · exact c1_error_propagation.2.2.2.2.1 {} 0 [1, 2] (by decide)
  · exact c1_error_propagation.2.2.2.2.2 {} 0 [1, 0, 0, 0] .TruncatedBuffer rfl

end Nl80211

namespace Nl80211

/-- C7: in the Bss builder the BSS_STATUS sub-attribute assigns the
boolean status true exactly when the decoded little-endian u32 is
nonzero; the other sub-tags map BSSID to a 6-byte address, FREQUENCY,
SEEN_MS_AGO to u32, BEACON_INTERVAL to u16 and SIGNAL_MBM to i32; any
other sub-tag leaves the record unchanged, and any top-level attribute
other than the BSS container is ignored. -/
theorem c7_bss_mapping :
    (∀ (n : Nat) (b : Bss) (p : List Nat), 4 ≤ p.length →
      (Bss.subStep b ⟨n, Nl80211Bss.BssStatus, p⟩ = .ok { b with status := some true } ↔
        leVal (p.take 4) ≠ 0)) ∧
    (∀ (n : Nat) (b : Bss) (p : List Nat), p.length = 6 →
      Bss.subStep b ⟨n, Nl80211Bss.BssBssid, p⟩ = .ok { b with bssid := some ⟨p⟩ }) ∧
    (∀ (n : Nat) (b : Bss) (p : List Nat), 4 ≤ p.length →
      Bss.subStep b ⟨n, Nl80211Bss.BssFrequency, p⟩ =
        .ok { b with frequency := some (leVal (p.take 4)) }) ∧
    (∀ (n : Nat) (b : Bss) (p : List Nat), 2 ≤ p.length →
      Bss.subStep b ⟨n, Nl80211Bss.BssBeaconInterval, p⟩ =
        .ok { b with beacon_interval := some (leVal (p.take 2)) }) ∧
    (∀ (n : Nat) (b : Bss) (p : List Nat), 4 ≤ p.length →
      Bss.subStep b ⟨n, Nl80211Bss.BssSeenMsAgo, p⟩ =
        .ok { b with seen_ms_ago := some (leVal (p.take 4)) }) ∧
    (∀ (n : Nat) (b : Bss) (p : List Nat), 4 ≤ p.length →
      Bss.subStep b ⟨n, Nl80211Bss.BssSignalMbm, p⟩ =
        .ok { b with signal := some (asSigned 4 (leVal (p.take 4))) }) ∧
    (∀ (b : Bss) (a : Nlattr), Bss.subRecognized a = false → Bss.subStep b a = .ok b) ∧
    (∀ (b : Bss) (a : Nlattr), a.nla_type ≠ Nl80211Attr.AttrBss → Bss.step b a = .ok b) := by
  refine ⟨?_, ?_, ?_, ?_, ?_, ?_, bss_subStep_skip, ?_⟩
  · intro n b p hlen
    have hread : read_u32 p = .ok (leVal (p.take 4)) := by unfold read_u32; rw [if_pos hlen]
    unfold Bss.subStep
    dsimp only
    rw [if_neg (by decide), if_neg (by decide), if_neg (by decide), if_pos rfl, hread]
    simp only [liftResult, RustResult.map, RustResult.ok.injEq, Bss.mk.injEq, and_true,
      true_and, Option.some.injEq, bne_iff_ne, ne_eq, eq_self_iff_true]
  · intro n b p hlen
    have hpm : parse_macaddr p = .ok ⟨p⟩ := by unfold parse_macaddr; rw [if_pos hlen]
    unfold Bss.subStep
    dsimp only
    rw [if_neg (by decide), if_neg (by decide), if_neg (by decide), if_neg (by decide),
      if_pos rfl, hpm]
    rfl
  · intro n b p hlen
    have hread : read_u32 p = .ok (leVal (p.take 4)) := by unfold read_u32; rw [if_pos hlen]
    unfold Bss.subStep
    dsimp only
    rw [if_neg (by decide), if_pos rfl, hread]
    rfl
  · intro n b p hlen
    have hread : read_u16 p = .ok (leVal (p.take 2)) := by unfold read_u16; rw [if_pos hlen]
    unfold Bss.subStep
    dsimp only
    rw [if_pos rfl, hread]
    rfl
  · intro n b p hlen
    have hread : read_u32 p = .ok (leVal (p.take 4)) := by unfold read_u32; rw [if_pos hlen]
    unfold Bss.subStep
    dsimp only
    rw [if_neg (by decide), if_neg (by decide), if_pos rfl, hread]
    rfl
  · intro n b p hlen
    have hread : read_i32 p = .ok (asSigned 4 (leVal (p.take 4))) := by
      unfold read_i32; rw [if_pos hlen]
    unfold Bss.subStep
    dsimp only
    rw [if_neg (by decide), if_neg (by decide), if_neg (by decide), if_neg (by decide),
      if_neg (by decide), if_pos rfl, hread]
    rfl
  · intro b a h
    unfold Bss.step
    rw [if_neg h]

/-- C7, witness: the mapping theorem applied at concrete sub-attributes
(a nonzero STATUS payload and a 6-byte BSSID payload). -/
theorem c7_bss_mapping_witness :
    Bss.subStep {} ⟨0, Nl80211Bss.BssStatus, [1, 0, 0, 0]⟩ =
      .ok { status := some true } ∧
    Bss.subStep {} ⟨0, Nl80211Bss.BssBssid, [1, 2, 3, 4, 5, 6]⟩ =
      .ok { bssid := some ⟨[1, 2, 3, 4, 5, 6]⟩ } := by
  constructor
  · exact (c7_bss_mapping.1 0 {} [1, 0, 0, 0] (by decide)).mpr (by decide)
  · exact c7_bss_mapping.2.1 0 {} [1, 2, 3, 4, 5, 6] rfl

/-- C8: the decoding of a buffer is a pure function of the buffer - two
runs of the same builder on the same attribute sequence that both
succeed produce records that are field-for-field equal.  (The
no-side-effect half of the claim is settled against the source text, not
here: `Bss::from_handle` prints every top-level attribute to stdout.) -/
theorem c8_decode_deterministic :
    (∀ (h : List Nlattr) (r1 r2 : Interface),
      Interface.from_handle h = .ok r1 → Interface.from_handle h = .ok r2 → r1 = r2) ∧
    (∀ (h : List Nlattr) (b1 b2 : Bss),
      Bss.from_handle h = .ok b1 → Bss.from_handle h = .ok b2 →
      b1.bssid = b2.bssid ∧ b1.frequency = b2.frequency ∧
      b1.beacon_interval = b2.beacon_interval ∧ b1.seen_ms_ago = b2.seen_ms_ago ∧
      b1.status = b2.status ∧ b1.signal = b2.signal) ∧
    (∀ (h : List Nlattr) (s1 s2 : Station),
      Station.from_handle h = .ok s1 → Station.from_handle h = .ok s2 → s1 = s2) := by
  refine ⟨?_, ?_, ?_⟩
  · intro h r1 r2 h1 h2
    rw [h1] at h2
    injection h2
  · intro h b1 b2 h1 h2
    rw [h1] at h2
    injection h2 with h3
    rw [h3]
    exact ⟨rfl, rfl, rfl, rfl, rfl, rfl⟩
  · intro h s1 s2 h1 h2
    rw [h1] at h2
    injection h2

/-- C8, witness: determinism applied to a concrete decode. -/
theorem c8_decode_deterministic_witness :
    ({} : Bss).status = ({} : Bss).status ∧ scenarioCStation = scenarioCStation :=
  ⟨(c8_decode_deterministic.2.1 [] {} {} rfl rfl).2.2.2.2.1,
    c8_decode_deterministic.2.2 scenarioCHandle scenarioCStation scenarioCStation
      c9_station_scenario c9_station_scenario⟩

end Nl80211

namespace Nl80211

/-- C4: last occurrence wins - for every builder loop and every tag that
maps to a single record field, a successfully built record's field equals
the decode of the last occurrence of that tag in wire order (later
assignments unconditionally overwrite earlier ones during the single
in-order pass).  The two container tags (STA_INFO at the top level and
the two bitrate containers in the STA_INFO loop) map to no single field
and are not field assignments; all tag-to-field assignments of all three
builders are covered, at every nesting level. -/
theorem c4_last_wins :
    (∀ (l : List Nlattr) (r : Interface) (x : Nlattr),
      Interface.from_handle l = .ok r →
      (l.filter fun a => a.nla_type == Nl80211Attr.AttrIfindex).getLast? = some x →
      r.index = some (leVal (x.payload.take 4))) ∧
    (∀ (l : List Nlattr) (r : Interface) (x : Nlattr),
      Interface.from_handle l = .ok r →
      (l.filter fun a => a.nla_type == Nl80211Attr.AttrSsid).getLast? = some x →
      r.ssid = some (parse_string x.payload)) ∧
    (∀ (l : List Nlattr) (r : Interface) (x : Nlattr),
      Interface.from_handle l = .ok r →
      (l.filter fun a => a.nla_type == Nl80211Attr.AttrMac).getLast? = some x →
      r.mac = some ⟨x.payload⟩) ∧
    (∀ (l : List Nlattr) (r : Interface) (x : Nlattr),
      Interface.from_handle l = .ok r →
      (l.filter fun a => a.nla_type == Nl80211Attr.AttrIfname).getLast? = some x →
      r.name = some (parse_string x.payload)) ∧
    (∀ (l : List Nlattr) (r : Interface) (x : Nlattr),
      Interface.from_handle l = .ok r →
      (l.filter fun a => a.nla_type == Nl80211Attr.AttrWiphyFreq).getLast? = some x →
      r.frequency = some (leVal (x.payload.take 4))) ∧
    (∀ (l : List Nlattr) (r : Interface) (x : Nlattr),
      Interface.from_handle l = .ok r →
      (l.filter fun a => a.nla_type == Nl80211Attr.AttrChannelWidth).getLast? = some x →
      r.channel = some (leVal (x.payload.take 4))) ∧
    (∀ (l : List Nlattr) (r : Interface) (x : Nlattr),
      Interface.from_handle l = .ok r →
      (l.filter fun a => a.nla_type == Nl80211Attr.AttrWiphyTxPowerLevel).getLast? = some x →
      r.power = some (leVal (x.payload.take 4))) ∧
    (∀ (l : List Nlattr) (r : Interface) (x : Nlattr),
      Interface.from_handle l = .ok r →
      (l.filter fun a => a.nla_type == Nl80211Attr.AttrWiphy).getLast? = some x →
      r.phy = some (leVal (x.payload.take 4))) ∧
    (∀ (l : List Nlattr) (r : Interface) (x : Nlattr),
      Interface.from_handle l = .ok r →
      (l.filter fun a => a.nla_type == Nl80211Attr.AttrWdev).getLast? = some x →
      r.device = some (leVal (x.payload.take 8))) ∧
    (∀ (l : List Nlattr) (s : Station) (x : Nlattr),
      Station.from_handle l = .ok s →
      (l.filter fun a => a.nla_type == Nl80211Attr.AttrMac).getLast? = some x →
      s.bssid = some ⟨x.payload⟩) ∧
    (∀ (b0 : Bss) (subs : List Nlattr) (b : Bss) (x : Nlattr),
      runFold Bss.subStep b0 subs = .ok b →
      (subs.filter fun a => a.nla_type == Nl80211Bss.BssBeaconInterval).getLast? = some x →
      b.beacon_interval = some (leVal (x.payload.take 2))) ∧
    (∀ (b0 : Bss) (subs : List Nlattr) (b : Bss) (x : Nlattr),
      runFold Bss.subStep b0 subs = .ok b →
      (subs.filter fun a => a.nla_type == Nl80211Bss.BssFrequency).getLast? = some x →
      b.frequency = some (leVal (x.payload.take 4))) ∧
    (∀ (b0 : Bss) (subs : List Nlattr) (b : Bss) (x : Nlattr),
      runFold Bss.subStep b0 subs = .ok b →
      (subs.filter fun a => a.nla_type == Nl80211Bss.BssSeenMsAgo).getLast? = some x →
      b.seen_ms_ago = some (leVal (x.payload.take 4))) ∧
    (∀ (b0 : Bss) (subs : List Nlattr) (b : Bss) (x : Nlattr),
      runFold Bss.subStep b0 subs = .ok b →
      (subs.filter fun a => a.nla_type == Nl80211Bss.BssStatus).getLast? = some x →
      b.status = some (leVal (x.payload.take 4) != 0)) ∧
    (∀ (b0 : Bss) (subs : List Nlattr) (b : Bss) (x : Nlattr),
      runFold Bss.subStep b0 subs = .ok b →
      (subs.filter fun a => a.nla_type == Nl80211Bss.BssBssid).getLast? = some x →
      b.bssid = some ⟨x.payload⟩) ∧
    (∀ (b0 : Bss) (subs : List Nlattr) (b : Bss) (x : Nlattr),
      runFold Bss.subStep b0 subs = .ok b →
      (subs.filter fun a => a.nla_type == Nl80211Bss.BssSignalMbm).getLast? = some x →
      b.signal = some (asSigned 4 (leVal (x.payload.take 4)))) ∧
    (∀ (s0 : Station) (subs : List Nlattr) (s : Station) (x : Nlattr),
      runFold Station.subStep s0 subs = .ok s →
      (subs.filter fun a => a.nla_type == Nl80211StaInfo.StaInfoSignal).getLast? = some x →
      s.signal = some (asSigned 1 (leVal x.payload))) ∧
    (∀ (s0 : Station) (subs : List Nlattr) (s : Station) (x : Nlattr),
      runFold Station.subStep s0 subs = .ok s →
      (subs.filter fun a => a.nla_type == Nl80211StaInfo.StaInfoSignalAvg).getLast? = some x →
      s.average_signal = some (asSigned 1 (leVal x.payload))) ∧
    (∀ (s0 : Station) (subs : List Nlattr) (s : Station) (x : Nlattr),
      runFold Station.subStep s0 subs = .ok s →
      (subs.filter fun a => a.nla_type == Nl80211StaInfo.StaInfoBeaconLoss).getLast? = some x →
      s.beacon_loss = some (leVal x.payload)) ∧
    (∀ (s0 : Station) (subs : List Nlattr) (s : Station) (x : Nlattr),
      runFold Station.subStep s0 subs = .ok s →
      (subs.filter fun a => a.nla_type == Nl80211StaInfo.StaInfoConnectedTime).getLast? = some x →
      s.connected_time = some (leVal x.payload)) ∧
    (∀ (s0 : Station) (subs : List Nlattr) (s : Station) (x : Nlattr),
      runFold Station.subStep s0 subs = .ok s →
      (subs.filter fun a => a.nla_type == Nl80211StaInfo.StaInfoRxPackets).getLast? = some x →
      s.rx_packets = some (leVal x.payload)) ∧
    (∀ (s0 : Station) (subs : List Nlattr) (s : Station) (x : Nlattr),
      runFold Station.subStep s0 subs = .ok s →
      (subs.filter fun a => a.nla_type == Nl80211StaInfo.StaInfoTxPackets).getLast? = some x →
      s.tx_packets = some (leVal x.payload)) ∧
    (∀ (s0 : Station) (subs : List Nlattr) (s : Station) (x : Nlattr),
      runFold Station.subStep s0 subs = .ok s →
      (subs.filter fun a => a.nla_type == Nl80211StaInfo.StaInfoTxRetries).getLast? = some x →
      s.tx_retries = some (leVal x.payload)) ∧
    (∀ (s0 : Station) (subs : List Nlattr) (s : Station) (x : Nlattr),
      runFold Station.subStep s0 subs = .ok s →
      (subs.filter fun a => a.nla_type == Nl80211StaInfo.StaInfoTxFailed).getLast? = some x →
      s.tx_failed = some (leVal x.payload)) ∧
    (∀ (s0 : Station) (subs : List Nlattr) (s : Station) (x : Nlattr),
      runFold Station.rxRateStep s0 subs = .ok s →
      (subs.filter fun a => a.nla_type == Nl80211RateInfo.RateInfoBitrate32).getLast? = some x →
      s.rx_bitrate = some (leVal x.payload)) ∧
    (∀ (s0 : Station) (subs : List Nlattr) (s : Station) (x : Nlattr),
      runFold Station.txRateStep s0 subs = .ok s →
      (subs.filter fun a => a.nla_type == Nl80211RateInfo.RateInfoBitrate32).getLast? = some x →
      s.tx_bitrate = some (leVal x.payload)) := by
  refine ⟨?_, ?_, ?_, ?_, ?_, ?_, ?_, ?_, ?_, ?_, ?_, ?_, ?_, ?_, ?_, ?_, ?_, ?_, ?_, ?_, ?_, ?_, ?_, ?_, ?_, ?_⟩
  · intro l r x h1 h2
    refine @runFold_last_wins _ _ Interface.step (fun a => a.nla_type == Nl80211Attr.AttrIfindex) (fun r => r.index) (fun x => leVal (x.payload.take 4)) ?_ ?_ _ _ _ _ h1 h2
    · intro q1 q2 x2 hq hstep
      have hq2 : x2.nla_type = Nl80211Attr.AttrIfindex := eq_of_beq hq
      rcases interface_step_ok_effect hstep with
        ⟨ht, rfl⟩ | ⟨ht, rfl⟩ | ⟨ht, rfl⟩ | ⟨ht, rfl⟩ | ⟨ht, rfl⟩ | ⟨ht, rfl⟩ | ⟨ht, rfl⟩ | ⟨ht, rfl⟩ | ⟨ht, rfl⟩ | ⟨ht, rfl⟩
      all_goals first
        | rfl
        | exact absurd (hq2.symm.trans ht) (by decide)
        | simp only [Interface.recognized, hq2, beq_self_eq_true, Bool.true_or, Bool.or_true,
            Bool.true_eq_false] at ht
    · intro q1 q2 x2 hq hstep
      have hq2 : x2.nla_type ≠ Nl80211Attr.AttrIfindex := ne_of_beq_false hq
      rcases interface_step_ok_effect hstep with
        ⟨ht, rfl⟩ | ⟨ht, rfl⟩ | ⟨ht, rfl⟩ | ⟨ht, rfl⟩ | ⟨ht, rfl⟩ | ⟨ht, rfl⟩ | ⟨ht, rfl⟩ | ⟨ht, rfl⟩ | ⟨ht, rfl⟩ | ⟨ht, rfl⟩
      all_goals first
        | exact absurd ht hq2
        | rfl
  · intro l r x h1 h2
    refine @runFold_last_wins _ _ Interface.step (fun a => a.nla_type == Nl80211Attr.AttrSsid) (fun r => r.ssid) (fun x => parse_string x.payload) ?_ ?_ _ _ _ _ h1 h2
    · intro q1 q2 x2 hq hstep
      have hq2 : x2.nla_type = Nl80211Attr.AttrSsid := eq_of_beq hq
      rcases interface_step_ok_effect hstep with
        ⟨ht, rfl⟩ | ⟨ht, rfl⟩ | ⟨ht, rfl⟩ | ⟨ht, rfl⟩ | ⟨ht, rfl⟩ | ⟨ht, rfl⟩ | ⟨ht, rfl⟩ | ⟨ht, rfl⟩ | ⟨ht, rfl⟩ | ⟨ht, rfl⟩
      all_goals first
        | rfl
        | exact absurd (hq2.symm.trans ht) (by decide)
        | simp only [Interface.recognized, hq2, beq_self_eq_true, Bool.true_or, Bool.or_true,
            Bool.true_eq_false] at ht
    · intro q1 q2 x2 hq hstep
      have hq2 : x2.nla_type ≠ Nl80211Attr.AttrSsid := ne_of_beq_false hq
      rcases interface_step_ok_effect hstep with
        ⟨ht, rfl⟩ | ⟨ht, rfl⟩ | ⟨ht, rfl⟩ | ⟨ht, rfl⟩ | ⟨ht, rfl⟩ | ⟨ht, rfl⟩ | ⟨ht, rfl⟩ | ⟨ht, rfl⟩ | ⟨ht, rfl⟩ | ⟨ht, rfl⟩
      all_goals first
        | exact absurd ht hq2
        | rfl
  · intro l r x h1 h2
    refine @runFold_last_wins _ _ Interface.step (fun a => a.nla_type == Nl80211Attr.AttrMac) (fun r => r.mac) (fun x => (⟨x.payload⟩ : MacAddr)) ?_ ?_ _ _ _ _ h1 h2
    · intro q1 q2 x2 hq hstep
      have hq2 : x2.nla_type = Nl80211Attr.AttrMac := eq_of_beq hq
      rcases interface_step_ok_effect hstep with
        ⟨ht, rfl⟩ | ⟨ht, rfl⟩ | ⟨ht, rfl⟩ | ⟨ht, rfl⟩ | ⟨ht, rfl⟩ | ⟨ht, rfl⟩ | ⟨ht, rfl⟩ | ⟨ht, rfl⟩ | ⟨ht, rfl⟩ | ⟨ht, rfl⟩
      all_goals first
        | rfl
        | exact absurd (hq2.symm.trans ht) (by decide)
        | simp only [Interface.recognized, hq2, beq_self_eq_true, Bool.true_or, Bool.or_true,
            Bool.true_eq_false] at ht
    · intro q1 q2 x2 hq hstep
      have hq2 : x2.nla_type ≠ Nl80211Attr.AttrMac := ne_of_beq_false hq
      rcases interface_step_ok_effect hstep with
        ⟨ht, rfl⟩ | ⟨ht, rfl⟩ | ⟨ht, rfl⟩ | ⟨ht, rfl⟩ | ⟨ht, rfl⟩ | ⟨ht, rfl⟩ | ⟨ht, rfl⟩ | ⟨ht, rfl⟩ | ⟨ht, rfl⟩ | ⟨ht, rfl⟩
      all_goals first
        | exact absurd ht hq2
        | rfl
  · intro l r x h1 h2
    refine @runFold_last_wins _ _ Interface.step (fun a => a.nla_type == Nl80211Attr.AttrIfname) (fun r => r.name) (fun x => parse_string x.payload) ?_ ?_ _ _ _ _ h1 h2
    · intro q1 q2 x2 hq hstep
      have hq2 : x2.nla_type = Nl80211Attr.AttrIfname := eq_of_beq hq
      rcases interface_step_ok_effect hstep with
        ⟨ht, rfl⟩ | ⟨ht, rfl⟩ | ⟨ht, rfl⟩ | ⟨ht, rfl⟩ | ⟨ht, rfl⟩ | ⟨ht, rfl⟩ | ⟨ht, rfl⟩ | ⟨ht, rfl⟩ | ⟨ht, rfl⟩ | ⟨ht, rfl⟩
      all_goals first
        | rfl
        | exact absurd (hq2.symm.trans ht) (by decide)
        | simp only [Interface.recognized, hq2, beq_self_eq_true, Bool.true_or, Bool.or_true,
            Bool.true_eq_false] at ht
    · intro q1 q2 x2 hq hstep
      have hq2 : x2.nla_type ≠ Nl80211Attr.AttrIfname := ne_of_beq_false hq
      rcases interface_step_ok_effect hstep with
        ⟨ht, rfl⟩ | ⟨ht, rfl⟩ | ⟨ht, rfl⟩ | ⟨ht, rfl⟩ | ⟨ht, rfl⟩ | ⟨ht, rfl⟩ | ⟨ht, rfl⟩ | ⟨ht, rfl⟩ | ⟨ht, rfl⟩ | ⟨ht, rfl⟩
      all_goals first
        | exact absurd ht hq2
        | rfl
  · intro l r x h1 h2
    refine @runFold_last_wins _ _ Interface.step (fun a => a.nla_type == Nl80211Attr.AttrWiphyFreq) (fun r => r.frequency) (fun x => leVal (x.payload.take 4)) ?_ ?_ _ _ _ _ h1 h2
    · intro q1 q2 x2 hq hstep
      have hq2 : x2.nla_type = Nl80211Attr.AttrWiphyFreq := eq_of_beq hq
      rcases interface_step_ok_effect hstep with
        ⟨ht, rfl⟩ | ⟨ht, rfl⟩ | ⟨ht, rfl⟩ | ⟨ht, rfl⟩ | ⟨ht, rfl⟩ | ⟨ht, rfl⟩ | ⟨ht, rfl⟩ | ⟨ht, rfl⟩ | ⟨ht, rfl⟩ | ⟨ht, rfl⟩
      all_goals first
        | rfl
        | exact absurd (hq2.symm.trans ht) (by decide)
        | simp only [Interface.recognized, hq2, beq_self_eq_true, Bool.true_or, Bool.or_true,
            Bool.true_eq_false] at ht
    · intro q1 q2 x2 hq hstep
      have hq2 : x2.nla_type ≠ Nl80211Attr.AttrWiphyFreq := ne_of_beq_false hq
      rcases interface_step_ok_effect hstep with
        ⟨ht, rfl⟩ | ⟨ht, rfl⟩ | ⟨ht, rfl⟩ | ⟨ht, rfl⟩ | ⟨ht, rfl⟩ | ⟨ht, rfl⟩ | ⟨ht, rfl⟩ | ⟨ht, rfl⟩ | ⟨ht, rfl⟩ | ⟨ht, rfl⟩
      all_goals first
        | exact absurd ht hq2
        | rfl
  · intro l r x h1 h2
    refine @runFold_last_wins _ _ Interface.step (fun a => a.nla_type == Nl80211Attr.AttrChannelWidth) (fun r => r.channel) (fun x => leVal (x.payload.take 4)) ?_ ?_ _ _ _ _ h1 h2
    · intro q1 q2 x2 hq hstep
      have hq2 : x2.nla_type = Nl80211Attr.AttrChannelWidth := eq_of_beq hq
      rcases interface_step_ok_effect hstep with
        ⟨ht, rfl⟩ | ⟨ht, rfl⟩ | ⟨ht, rfl⟩ | ⟨ht, rfl⟩ | ⟨ht, rfl⟩ | ⟨ht, rfl⟩ | ⟨ht, rfl⟩ | ⟨ht, rfl⟩ | ⟨ht, rfl⟩ | ⟨ht, rfl⟩
      all_goals first
        | rfl
        | exact absurd (hq2.symm.trans ht) (by decide)
        | simp only [Interface.recognized, hq2, beq_self_eq_true, Bool.true_or, Bool.or_true,
            Bool.true_eq_false] at ht
    · intro q1 q2 x2 hq hstep
      have hq2 : x2.nla_type ≠ Nl80211Attr.AttrChannelWidth := ne_of_beq_false hq
      rcases interface_step_ok_effect hstep with
        ⟨ht, rfl⟩ | ⟨ht, rfl⟩ | ⟨ht, rfl⟩ | ⟨ht, rfl⟩ | ⟨ht, rfl⟩ | ⟨ht, rfl⟩ | ⟨ht, rfl⟩ | ⟨ht, rfl⟩ | ⟨ht, rfl⟩ | ⟨ht, rfl⟩
      all_goals first
        | exact absurd ht hq2
        | rfl
  · intro l r x h1 h2
    refine @runFold_last_wins _ _ Interface.step (fun a => a.nla_type == Nl80211Attr.AttrWiphyTxPowerLevel) (fun r => r.power) (fun x => leVal (x.payload.take 4)) ?_ ?_ _ _ _ _ h1 h2
    · intro q1 q2 x2 hq hstep
      have hq2 : x2.nla_type = Nl80211Attr.AttrWiphyTxPowerLevel := eq_of_beq hq
      rcases interface_step_ok_effect hstep with
        ⟨ht, rfl⟩ | ⟨ht, rfl⟩ | ⟨ht, rfl⟩ | ⟨ht, rfl⟩ | ⟨ht, rfl⟩ | ⟨ht, rfl⟩ | ⟨ht, rfl⟩ | ⟨ht, rfl⟩ | ⟨ht, rfl⟩ | ⟨ht, rfl⟩
      all_goals first
        | rfl
        | exact absurd (hq2.symm.trans ht) (by decide)
        | simp only [Interface.recognized, hq2, beq_self_eq_true, Bool.true_or, Bool.or_true,
            Bool.true_eq_false] at ht
    · intro q1 q2 x2 hq hstep
      have hq2 : x2.nla_type ≠ Nl80211Attr.AttrWiphyTxPowerLevel := ne_of_beq_false hq
      rcases interface_step_ok_effect hstep with
        ⟨ht, rfl⟩ | ⟨ht, rfl⟩ | ⟨ht, rfl⟩ | ⟨ht, rfl⟩ | ⟨ht, rfl⟩ | ⟨ht, rfl⟩ | ⟨ht, rfl⟩ | ⟨ht, rfl⟩ | ⟨ht, rfl⟩ | ⟨ht, rfl⟩
      all_goals first
        | exact absurd ht hq2
        | rfl
  · intro l r x h1 h2
    refine @runFold_last_wins _ _ Interface.step (fun a => a.nla_type == Nl80211Attr.AttrWiphy) (fun r => r.phy) (fun x => leVal (x.payload.take 4)) ?_ ?_ _ _ _ _ h1 h2
    · intro q1 q2 x2 hq hstep
      have hq2 : x2.nla_type = Nl80211Attr.AttrWiphy := eq_of_beq hq
      rcases interface_step_ok_effect hstep with
        ⟨ht, rfl⟩ | ⟨ht, rfl⟩ | ⟨ht, rfl⟩ | ⟨ht, rfl⟩ | ⟨ht, rfl⟩ | ⟨ht, rfl⟩ | ⟨ht, rfl⟩ | ⟨ht, rfl⟩ | ⟨ht, rfl⟩ | ⟨ht, rfl⟩
      all_goals first
        | rfl
        | exact absurd (hq2.symm.trans ht) (by decide)
        | simp only [Interface.recognized, hq2, beq_self_eq_true, Bool.true_or, Bool.or_true,
            Bool.true_eq_false] at ht
    · intro q1 q2 x2 hq hstep
      have hq2 : x2.nla_type ≠ Nl80211Attr.AttrWiphy := ne_of_beq_false hq
      rcases interface_step_ok_effect hstep with
        ⟨ht, rfl⟩ | ⟨ht, rfl⟩ | ⟨ht, rfl⟩ | ⟨ht, rfl⟩ | ⟨ht, rfl⟩ | ⟨ht, rfl⟩ | ⟨ht, rfl⟩ | ⟨ht, rfl⟩ | ⟨ht, rfl⟩ | ⟨ht, rfl⟩
      all_goals first
        | exact absurd ht hq2
        | rfl
  · intro l r x h1 h2
    refine @runFold_last_wins _ _ Interface.step (fun a => a.nla_type == Nl80211Attr.AttrWdev) (fun r => r.device) (fun x => leVal (x.payload.take 8)) ?_ ?_ _ _ _ _ h1 h2
    · intro q1 q2 x2 hq hstep
      have hq2 : x2.nla_type = Nl80211Attr.AttrWdev := eq_of_beq hq
      rcases interface_step_ok_effect hstep with
        ⟨ht, rfl⟩ | ⟨ht, rfl⟩ | ⟨ht, rfl⟩ | ⟨ht, rfl⟩ | ⟨ht, rfl⟩ | ⟨ht, rfl⟩ | ⟨ht, rfl⟩ | ⟨ht, rfl⟩ | ⟨ht, rfl⟩ | ⟨ht, rfl⟩
      all_goals first
        | rfl
        | exact absurd (hq2.symm.trans ht) (by decide)
        | simp only [Interface.recognized, hq2, beq_self_eq_true, Bool.true_or, Bool.or_true,
            Bool.true_eq_false] at ht
    · intro q1 q2 x2 hq hstep
      have hq2 : x2.nla_type ≠ Nl80211Attr.AttrWdev := ne_of_beq_false hq
      rcases interface_step_ok_effect hstep with
        ⟨ht, rfl⟩ | ⟨ht, rfl⟩ | ⟨ht, rfl⟩ | ⟨ht, rfl⟩ | ⟨ht, rfl⟩ | ⟨ht, rfl⟩ | ⟨ht, rfl⟩ | ⟨ht, rfl⟩ | ⟨ht, rfl⟩ | ⟨ht, rfl⟩
      all_goals first
        | exact absurd ht hq2
        | rfl
  · intro l s x h1 h2
    refine @runFold_last_wins _ _ Station.step (fun a => a.nla_type == Nl80211Attr.AttrMac) (fun s => s.bssid) (fun x => (⟨x.payload⟩ : MacAddr)) ?_ ?_ _ _ _ _ h1 h2
    · intro q1 q2 x2 hq hstep
      have hq2 : x2.nla_type = Nl80211Attr.AttrMac := eq_of_beq hq
      rcases station_step_ok_effect hstep with
        ⟨ht, rfl⟩ | ⟨ht, hb⟩ | ⟨ht, rfl⟩
      all_goals first
        | rfl
        | exact absurd (hq2.symm.trans ht) (by decide)
        | simp only [Station.recognized, hq2, beq_self_eq_true, Bool.true_or, Bool.or_true,
            Bool.true_eq_false] at ht
    · intro q1 q2 x2 hq hstep
      have hq2 : x2.nla_type ≠ Nl80211Attr.AttrMac := ne_of_beq_false hq
      rcases station_step_ok_effect hstep with
        ⟨ht, rfl⟩ | ⟨ht, hb⟩ | ⟨ht, rfl⟩
      all_goals first
        | exact absurd ht hq2
        | rfl
        | exact hb
  · intro b0 subs b x h1 h2
    refine @runFold_last_wins _ _ Bss.subStep (fun a => a.nla_type == Nl80211Bss.BssBeaconInterval) (fun b => b.beacon_interval) (fun x => leVal (x.payload.take 2)) ?_ ?_ _ _ _ _ h1 h2
    · intro q1 q2 x2 hq hstep
      have hq2 : x2.nla_type = Nl80211Bss.BssBeaconInterval := eq_of_beq hq
      rcases bss_subStep_ok_effect hstep with
        ⟨ht, rfl⟩ | ⟨ht, rfl⟩ | ⟨ht, rfl⟩ | ⟨ht, rfl⟩ | ⟨ht, rfl⟩ | ⟨ht, rfl⟩ | ⟨ht, rfl⟩
      all_goals first
        | rfl
        | exact absurd (hq2.symm.trans ht) (by decide)
        | simp only [Bss.subRecognized, hq2, beq_self_eq_true, Bool.true_or, Bool.or_true,
            Bool.true_eq_false] at ht
    · intro q1 q2 x2 hq hstep
      have hq2 : x2.nla_type ≠ Nl80211Bss.BssBeaconInterval := ne_of_beq_false hq
      rcases bss_subStep_ok_effect hstep with
        ⟨ht, rfl⟩ | ⟨ht, rfl⟩ | ⟨ht, rfl⟩ | ⟨ht, rfl⟩ | ⟨ht, rfl⟩ | ⟨ht, rfl⟩ | ⟨ht, rfl⟩
      all_goals first
        | exact absurd ht hq2
        | rfl
  · intro b0 subs b x h1 h2
    refine @runFold_last_wins _ _ Bss.subStep (fun a => a.nla_type == Nl80211Bss.BssFrequency) (fun b => b.frequency) (fun x => leVal (x.payload.take 4)) ?_ ?_ _ _ _ _ h1 h2
    · intro q1 q2 x2 hq hstep
      have hq2 : x2.nla_type = Nl80211Bss.BssFrequency := eq_of_beq hq
      rcases bss_subStep_ok_effect hstep with
        ⟨ht, rfl⟩ | ⟨ht, rfl⟩ | ⟨ht, rfl⟩ | ⟨ht, rfl⟩ | ⟨ht, rfl⟩ | ⟨ht, rfl⟩ | ⟨ht, rfl⟩
      all_goals first
        | rfl
        | exact absurd (hq2.symm.trans ht) (by decide)
        | simp only [Bss.subRecognized, hq2, beq_self_eq_true, Bool.true_or, Bool.or_true,
            Bool.true_eq_false] at ht
    · intro q1 q2 x2 hq hstep
      have hq2 : x2.nla_type ≠ Nl80211Bss.BssFrequency := ne_of_beq_false hq
      rcases bss_subStep_ok_effect hstep with
        ⟨ht, rfl⟩ | ⟨ht, rfl⟩ | ⟨ht, rfl⟩ | ⟨ht, rfl⟩ | ⟨ht, rfl⟩ | ⟨ht, rfl⟩ | ⟨ht, rfl⟩
      all_goals first
        | exact absurd ht hq2
        | rfl
  · intro b0 subs b x h1 h2
    refine @runFold_last_wins _ _ Bss.subStep (fun a => a.nla_type == Nl80211Bss.BssSeenMsAgo) (fun b => b.seen_ms_ago) (fun x => leVal (x.payload.take 4)) ?_ ?_ _ _ _ _ h1 h2
    · intro q1 q2 x2 hq hstep
      have hq2 : x2.nla_type = Nl80211Bss.BssSeenMsAgo := eq_of_beq hq
      rcases bss_subStep_ok_effect hstep with
        ⟨ht, rfl⟩ | ⟨ht, rfl⟩ | ⟨ht, rfl⟩ | ⟨ht, rfl⟩ | ⟨ht, rfl⟩ | ⟨ht, rfl⟩ | ⟨ht, rfl⟩
      all_goals first
        | rfl
        | exact absurd (hq2.symm.trans ht) (by decide)
        | simp only [Bss.subRecognized, hq2, beq_self_eq_true, Bool.true_or, Bool.or_true,
            Bool.true_eq_false] at ht
    · intro q1 q2 x2 hq hstep
      have hq2 : x2.nla_type ≠ Nl80211Bss.BssSeenMsAgo := ne_of_beq_false hq
      rcases bss_subStep_ok_effect hstep with
        ⟨ht, rfl⟩ | ⟨ht, rfl⟩ | ⟨ht, rfl⟩ | ⟨ht, rfl⟩ | ⟨ht, rfl⟩ | ⟨ht, rfl⟩ | ⟨ht, rfl⟩
      all_goals first
        | exact absurd ht hq2
        | rfl
  · intro b0 subs b x h1 h2
    refine @runFold_last_wins _ _ Bss.subStep (fun a => a.nla_type == Nl80211Bss.BssStatus) (fun b => b.status) (fun x => (leVal (x.payload.take 4) != 0)) ?_ ?_ _ _ _ _ h1 h2
    · intro q1 q2 x2 hq hstep
      have hq2 : x2.nla_type = Nl80211Bss.BssStatus := eq_of_beq hq
      rcases bss_subStep_ok_effect hstep with
        ⟨ht, rfl⟩ | ⟨ht, rfl⟩ | ⟨ht, rfl⟩ | ⟨ht, rfl⟩ | ⟨ht, rfl⟩ | ⟨ht, rfl⟩ | ⟨ht, rfl⟩
      all_goals first
        | rfl
        | exact absurd (hq2.symm.trans ht) (by decide)
        | simp only [Bss.subRecognized, hq2, beq_self_eq_true, Bool.true_or, Bool.or_true,
            Bool.true_eq_false] at ht
    · intro q1 q2 x2 hq hstep
      have hq2 : x2.nla_type ≠ Nl80211Bss.BssStatus := ne_of_beq_false hq
      rcases bss_subStep_ok_effect hstep with
        ⟨ht, rfl⟩ | ⟨ht, rfl⟩ | ⟨ht, rfl⟩ | ⟨ht, rfl⟩ | ⟨ht, rfl⟩ | ⟨ht, rfl⟩ | ⟨ht, rfl⟩
      all_goals first
        | exact absurd ht hq2
        | rfl
  · intro b0 subs b x h1 h2
    refine @runFold_last_wins _ _ Bss.subStep (fun a => a.nla_type == Nl80211Bss.BssBssid) (fun b => b.bssid) (fun x => (⟨x.payload⟩ : MacAddr)) ?_ ?_ _ _ _ _ h1 h2
    · intro q1 q2 x2 hq hstep
      have hq2 : x2.nla_type = Nl80211Bss.BssBssid := eq_of_beq hq
      rcases bss_subStep_ok_effect hstep with
        ⟨ht, rfl⟩ | ⟨ht, rfl⟩ | ⟨ht, rfl⟩ | ⟨ht, rfl⟩ | ⟨ht, rfl⟩ | ⟨ht, rfl⟩ | ⟨ht, rfl⟩
      all_goals first
        | rfl
        | exact absurd (hq2.symm.trans ht) (by decide)
        | simp only [Bss.subRecognized, hq2, beq_self_eq_true, Bool.true_or, Bool.or_true,
            Bool.true_eq_false] at ht
    · intro q1 q2 x2 hq hstep
      have hq2 : x2.nla_type ≠ Nl80211Bss.BssBssid := ne_of_beq_false hq
      rcases bss_subStep_ok_effect hstep with
        ⟨ht, rfl⟩ | ⟨ht, rfl⟩ | ⟨ht, rfl⟩ | ⟨ht, rfl⟩ | ⟨ht, rfl⟩ | ⟨ht, rfl⟩ | ⟨ht, rfl⟩
      all_goals first
        | exact absurd ht hq2
        | rfl
  · intro b0 subs b x h1 h2
    refine @runFold_last_wins _ _ Bss.subStep (fun a => a.nla_type == Nl80211Bss.BssSignalMbm) (fun b => b.signal) (fun x => asSigned 4 (leVal (x.payload.take 4))) ?_ ?_ _ _ _ _ h1 h2
    · intro q1 q2 x2 hq hstep
      have hq2 : x2.nla_type = Nl80211Bss.BssSignalMbm := eq_of_beq hq
      rcases bss_subStep_ok_effect hstep with
        ⟨ht, rfl⟩ | ⟨ht, rfl⟩ | ⟨ht, rfl⟩ | ⟨ht, rfl⟩ | ⟨ht, rfl⟩ | ⟨ht, rfl⟩ | ⟨ht, rfl⟩
      all_goals first
        | rfl
        | exact absurd (hq2.symm.trans ht) (by decide)
        | simp only [Bss.subRecognized, hq2, beq_self_eq_true, Bool.true_or, Bool.or_true,
            Bool.true_eq_false] at ht
    · intro q1 q2 x2 hq hstep
      have hq2 : x2.nla_type ≠ Nl80211Bss.BssSignalMbm := ne_of_beq_false hq
      rcases bss_subStep_ok_effect hstep with
        ⟨ht, rfl⟩ | ⟨ht, rfl⟩ | ⟨ht, rfl⟩ | ⟨ht, rfl⟩ | ⟨ht, rfl⟩ | ⟨ht, rfl⟩ | ⟨ht, rfl⟩
      all_goals first
        | exact absurd ht hq2
        | rfl
  · intro s0 subs s x h1 h2
    refine @runFold_last_wins _ _ Station.subStep (fun a => a.nla_type == Nl80211StaInfo.StaInfoSignal) (fun s => s.signal) (fun x => asSigned 1 (leVal x.payload)) ?_ ?_ _ _ _ _ h1 h2
    · intro q1 q2 x2 hq hstep
      have hq2 : x2.nla_type = Nl80211StaInfo.StaInfoSignal := eq_of_beq hq
      rcases station_subStep_ok_effect hstep with
        ⟨ht, rfl⟩ | ⟨ht, rfl⟩ | ⟨ht, rfl⟩ | ⟨ht, rfl⟩ | ⟨ht, rfl⟩ | ⟨ht, rfl⟩ | ⟨ht, rfl⟩ | ⟨ht, rfl⟩ | ⟨ht, hr⟩ | ⟨ht, hr⟩ | ⟨ht, rfl⟩
      all_goals first
        | rfl
        | exact absurd (hq2.symm.trans ht) (by decide)
        | simp only [Station.subRecognized, hq2, beq_self_eq_true, Bool.true_or, Bool.or_true,
            Bool.true_eq_false] at ht
    · intro q1 q2 x2 hq hstep
      have hq2 : x2.nla_type ≠ Nl80211StaInfo.StaInfoSignal := ne_of_beq_false hq
      rcases station_subStep_ok_effect hstep with
        ⟨ht, rfl⟩ | ⟨ht, rfl⟩ | ⟨ht, rfl⟩ | ⟨ht, rfl⟩ | ⟨ht, rfl⟩ | ⟨ht, rfl⟩ | ⟨ht, rfl⟩ | ⟨ht, rfl⟩ | ⟨ht, hr⟩ | ⟨ht, hr⟩ | ⟨ht, rfl⟩
      all_goals first
        | exact absurd ht hq2
        | rfl
        | (rw [hr])
  · intro s0 subs s x h1 h2
    refine @runFold_last_wins _ _ Station.subStep (fun a => a.nla_type == Nl80211StaInfo.StaInfoSignalAvg) (fun s => s.average_signal) (fun x => asSigned 1 (leVal x.payload)) ?_ ?_ _ _ _ _ h1 h2
    · intro q1 q2 x2 hq hstep
      have hq2 : x2.nla_type = Nl80211StaInfo.StaInfoSignalAvg := eq_of_beq hq
      rcases station_subStep_ok_effect hstep with
        ⟨ht, rfl⟩ | ⟨ht, rfl⟩ | ⟨ht, rfl⟩ | ⟨ht, rfl⟩ | ⟨ht, rfl⟩ | ⟨ht, rfl⟩ | ⟨ht, rfl⟩ | ⟨ht, rfl⟩ | ⟨ht, hr⟩ | ⟨ht, hr⟩ | ⟨ht, rfl⟩
      all_goals first
        | rfl
        | exact absurd (hq2.symm.trans ht) (by decide)
        | simp only [Station.subRecognized, hq2, beq_self_eq_true, Bool.true_or, Bool.or_true,
            Bool.true_eq_false] at ht
    · intro q1 q2 x2 hq hstep
      have hq2 : x2.nla_type ≠ Nl80211StaInfo.StaInfoSignalAvg := ne_of_beq_false hq
      rcases station_subStep_ok_effect hstep with
        ⟨ht, rfl⟩ | ⟨ht, rfl⟩ | ⟨ht, rfl⟩ | ⟨ht, rfl⟩ | ⟨ht, rfl⟩ | ⟨ht, rfl⟩ | ⟨ht, rfl⟩ | ⟨ht, rfl⟩ | ⟨ht, hr⟩ | ⟨ht, hr⟩ | ⟨ht, rfl⟩
      all_goals first
        | exact absurd ht hq2
        | rfl
        | (rw [hr])
  · intro s0 subs s x h1 h2
    refine @runFold_last_wins _ _ Station.subStep (fun a => a.nla_type == Nl80211StaInfo.StaInfoBeaconLoss) (fun s => s.beacon_loss) (fun x => leVal x.payload) ?_ ?_ _ _ _ _ h1 h2
    · intro q1 q2 x2 hq hstep
      have hq2 : x2.nla_type = Nl80211StaInfo.StaInfoBeaconLoss := eq_of_beq hq
      rcases station_subStep_ok_effect hstep with
        ⟨ht, rfl⟩ | ⟨ht, rfl⟩ | ⟨ht, rfl⟩ | ⟨ht, rfl⟩ | ⟨ht, rfl⟩ | ⟨ht, rfl⟩ | ⟨ht, rfl⟩ | ⟨ht, rfl⟩ | ⟨ht, hr⟩ | ⟨ht, hr⟩ | ⟨ht, rfl⟩
      all_goals first
        | rfl
        | exact absurd (hq2.symm.trans ht) (by decide)
        | simp only [Station.subRecognized, hq2, beq_self_eq_true, Bool.true_or, Bool.or_true,
            Bool.true_eq_false] at ht
    · intro q1 q2 x2 hq hstep
      have hq2 : x2.nla_type ≠ Nl80211StaInfo.StaInfoBeaconLoss := ne_of_beq_false hq
      rcases station_subStep_ok_effect hstep with
        ⟨ht, rfl⟩ | ⟨ht, rfl⟩ | ⟨ht, rfl⟩ | ⟨ht, rfl⟩ | ⟨ht, rfl⟩ | ⟨ht, rfl⟩ | ⟨ht, rfl⟩ | ⟨ht, rfl⟩ | ⟨ht, hr⟩ | ⟨ht, hr⟩ | ⟨ht, rfl⟩
      all_goals first
        | exact absurd ht hq2
        | rfl
        | (rw [hr])
  · intro s0 subs s x h1 h2
    refine @runFold_last_wins _ _ Station.subStep (fun a => a.nla_type == Nl80211StaInfo.StaInfoConnectedTime) (fun s => s.connected_time) (fun x => leVal x.payload) ?_ ?_ _ _ _ _ h1 h2
    · intro q1 q2 x2 hq hstep
      have hq2 : x2.nla_type = Nl80211StaInfo.StaInfoConnectedTime := eq_of_beq hq
      rcases station_subStep_ok_effect hstep with
        ⟨ht, rfl⟩ | ⟨ht, rfl⟩ | ⟨ht, rfl⟩ | ⟨ht, rfl⟩ | ⟨ht, rfl⟩ | ⟨ht, rfl⟩ | ⟨ht, rfl⟩ | ⟨ht, rfl⟩ | ⟨ht, hr⟩ | ⟨ht, hr⟩ | ⟨ht, rfl⟩
      all_goals first
        | rfl
        | exact absurd (hq2.symm.trans ht) (by decide)
        | simp only [Station.subRecognized, hq2, beq_self_eq_true, Bool.true_or, Bool.or_true,
            Bool.true_eq_false] at ht
    · intro q1 q2 x2 hq hstep
      have hq2 : x2.nla_type ≠ Nl80211StaInfo.StaInfoConnectedTime := ne_of_beq_false hq
      rcases station_subStep_ok_effect hstep with
        ⟨ht, rfl⟩ | ⟨ht, rfl⟩ | ⟨ht, rfl⟩ | ⟨ht, rfl⟩ | ⟨ht, rfl⟩ | ⟨ht, rfl⟩ | ⟨ht, rfl⟩ | ⟨ht, rfl⟩ | ⟨ht, hr⟩ | ⟨ht, hr⟩ | ⟨ht, rfl⟩
      all_goals first
        | exact absurd ht hq2
        | rfl
        | (rw [hr])
  · intro s0 subs s x h1 h2
    refine @runFold_last_wins _ _ Station.subStep (fun a => a.nla_type == Nl80211StaInfo.StaInfoRxPackets) (fun s => s.rx_packets) (fun x => leVal x.payload) ?_ ?_ _ _ _ _ h1 h2
    · intro q1 q2 x2 hq hstep
      have hq2 : x2.nla_type = Nl80211StaInfo.StaInfoRxPackets := eq_of_beq hq
      rcases station_subStep_ok_effect hstep with
        ⟨ht, rfl⟩ | ⟨ht, rfl⟩ | ⟨ht, rfl⟩ | ⟨ht, rfl⟩ | ⟨ht, rfl⟩ | ⟨ht, rfl⟩ | ⟨ht, rfl⟩ | ⟨ht, rfl⟩ | ⟨ht, hr⟩ | ⟨ht, hr⟩ | ⟨ht, rfl⟩
      all_goals first
        | rfl
        | exact absurd (hq2.symm.trans ht) (by decide)
        | simp only [Station.subRecognized, hq2, beq_self_eq_true, Bool.true_or, Bool.or_true,
            Bool.true_eq_false] at ht
    · intro q1 q2 x2 hq hstep
      have hq2 : x2.nla_type ≠ Nl80211StaInfo.StaInfoRxPackets := ne_of_beq_false hq
      rcases station_subStep_ok_effect hstep with
        ⟨ht, rfl⟩ | ⟨ht, rfl⟩ | ⟨ht, rfl⟩ | ⟨ht, rfl⟩ | ⟨ht, rfl⟩ | ⟨ht, rfl⟩ | ⟨ht, rfl⟩ | ⟨ht, rfl⟩ | ⟨ht, hr⟩ | ⟨ht, hr⟩ | ⟨ht, rfl⟩
      all_goals first
        | exact absurd ht hq2
        | rfl
        | (rw [hr])
  · intro s0 subs s x h1 h2
    refine @runFold_last_wins _ _ Station.subStep (fun a => a.nla_type == Nl80211StaInfo.StaInfoTxPackets) (fun s => s.tx_packets) (fun x => leVal x.payload) ?_ ?_ _ _ _ _ h1 h2
    · intro q1 q2 x2 hq hstep
      have hq2 : x2.nla_type = Nl80211StaInfo.StaInfoTxPackets := eq_of_beq hq
      rcases station_subStep_ok_effect hstep with
        ⟨ht, rfl⟩ | ⟨ht, rfl⟩ | ⟨ht, rfl⟩ | ⟨ht, rfl⟩ | ⟨ht, rfl⟩ | ⟨ht, rfl⟩ | ⟨ht, rfl⟩ | ⟨ht, rfl⟩ | ⟨ht, hr⟩ | ⟨ht, hr⟩ | ⟨ht, rfl⟩
      all_goals first
        | rfl
        | exact absurd (hq2.symm.trans ht) (by decide)
        | simp only [Station.subRecognized, hq2, beq_self_eq_true, Bool.true_or, Bool.or_true,
            Bool.true_eq_false] at ht
    · intro q1 q2 x2 hq hstep
      have hq2 : x2.nla_type ≠ Nl80211StaInfo.StaInfoTxPackets := ne_of_beq_false hq
      rcases station_subStep_ok_effect hstep with
        ⟨ht, rfl⟩ | ⟨ht, rfl⟩ | ⟨ht, rfl⟩ | ⟨ht, rfl⟩ | ⟨ht, rfl⟩ | ⟨ht, rfl⟩ | ⟨ht, rfl⟩ | ⟨ht, rfl⟩ | ⟨ht, hr⟩ | ⟨ht, hr⟩ | ⟨ht, rfl⟩
      all_goals first
        | exact absurd ht hq2
        | rfl
        | (rw [hr])
  · intro s0 subs s x h1 h2
    refine @runFold_last_wins _ _ Station.subStep (fun a => a.nla_type == Nl80211StaInfo.StaInfoTxRetries) (fun s => s.tx_retries) (fun x => leVal x.payload) ?_ ?_ _ _ _ _ h1 h2
    · intro q1 q2 x2 hq hstep
      have hq2 : x2.nla_type = Nl80211StaInfo.StaInfoTxRetries := eq_of_beq hq
      rcases station_subStep_ok_effect hstep with
        ⟨ht, rfl⟩ | ⟨ht, rfl⟩ | ⟨ht, rfl⟩ | ⟨ht, rfl⟩ | ⟨ht, rfl⟩ | ⟨ht, rfl⟩ | ⟨ht, rfl⟩ | ⟨ht, rfl⟩ | ⟨ht, hr⟩ | ⟨ht, hr⟩ | ⟨ht, rfl⟩
      all_goals first
        | rfl
        | exact absurd (hq2.symm.trans ht) (by decide)
        | simp only [Station.subRecognized, hq2, beq_self_eq_true, Bool.true_or, Bool.or_true,
            Bool.true_eq_false] at ht
    · intro q1 q2 x2 hq hstep
      have hq2 : x2.nla_type ≠ Nl80211StaInfo.StaInfoTxRetries := ne_of_beq_false hq
      rcases station_subStep_ok_effect hstep with
        ⟨ht, rfl⟩ | ⟨ht, rfl⟩ | ⟨ht, rfl⟩ | ⟨ht, rfl⟩ | ⟨ht, rfl⟩ | ⟨ht, rfl⟩ | ⟨ht, rfl⟩ | ⟨ht, rfl⟩ | ⟨ht, hr⟩ | ⟨ht, hr⟩ | ⟨ht, rfl⟩
      all_goals first
        | exact absurd ht hq2
        | rfl
        | (rw [hr])
  · intro s0 subs s x h1 h2
    refine @runFold_last_wins _ _ Station.subStep (fun a => a.nla_type == Nl80211StaInfo.StaInfoTxFailed) (fun s => s.tx_failed) (fun x => leVal x.payload) ?_ ?_ _ _ _ _ h1 h2
    · intro q1 q2 x2 hq hstep
      have hq2 : x2.nla_type = Nl80211StaInfo.StaInfoTxFailed := eq_of_beq hq
      rcases station_subStep_ok_effect hstep with
        ⟨ht, rfl⟩ | ⟨ht, rfl⟩ | ⟨ht, rfl⟩ | ⟨ht, rfl⟩ | ⟨ht, rfl⟩ | ⟨ht, rfl⟩ | ⟨ht, rfl⟩ | ⟨ht, rfl⟩ | ⟨ht, hr⟩ | ⟨ht, hr⟩ | ⟨ht, rfl⟩
      all_goals first
        | rfl
        | exact absurd (hq2.symm.trans ht) (by decide)
        | simp only [Station.subRecognized, hq2, beq_self_eq_true, Bool.true_or, Bool.or_true,
            Bool.true_eq_false] at ht
    · intro q1 q2 x2 hq hstep
      have hq2 : x2.nla_type ≠ Nl80211StaInfo.StaInfoTxFailed := ne_of_beq_false hq
      rcases station_subStep_ok_effect hstep with
        ⟨ht, rfl⟩ | ⟨ht, rfl⟩ | ⟨ht, rfl⟩ | ⟨ht, rfl⟩ | ⟨ht, rfl⟩ | ⟨ht, rfl⟩ | ⟨ht, rfl⟩ | ⟨ht, rfl⟩ | ⟨ht, hr⟩ | ⟨ht, hr⟩ | ⟨ht, rfl⟩
      all_goals first
        | exact absurd ht hq2
        | rfl
        | (rw [hr])
  · intro s0 subs s x h1 h2
    refine @runFold_last_wins _ _ Station.rxRateStep (fun a => a.nla_type == Nl80211RateInfo.RateInfoBitrate32) (fun s => s.rx_bitrate) (fun x => leVal x.payload) ?_ ?_ _ _ _ _ h1 h2
    · intro q1 q2 x2 hq hstep
      have hq2 : x2.nla_type = Nl80211RateInfo.RateInfoBitrate32 := eq_of_beq hq
      rcases station_rxRateStep_ok_effect hstep with
        ⟨ht, rfl⟩ | ⟨ht, rfl⟩
      all_goals first
        | rfl
        | exact absurd (hq2.symm.trans ht) (by decide)
        | simp only [Station.rateRecognized, hq2, beq_self_eq_true, Bool.true_or, Bool.or_true,
            Bool.true_eq_false] at ht
    · intro q1 q2 x2 hq hstep
      have hq2 : x2.nla_type ≠ Nl80211RateInfo.RateInfoBitrate32 := ne_of_beq_false hq
      rcases station_rxRateStep_ok_effect hstep with
        ⟨ht, rfl⟩ | ⟨ht, rfl⟩
      all_goals first
        | exact absurd ht hq2
        | rfl
  · intro s0 subs s x h1 h2
    refine @runFold_last_wins _ _ Station.txRateStep (fun a => a.nla_type == Nl80211RateInfo.RateInfoBitrate32) (fun s => s.tx_bitrate) (fun x => leVal x.payload) ?_ ?_ _ _ _ _ h1 h2
    · intro q1 q2 x2 hq hstep
      have hq2 : x2.nla_type = Nl80211RateInfo.RateInfoBitrate32 := eq_of_beq hq
      rcases station_txRateStep_ok_effect hstep with
        ⟨ht, rfl⟩ | ⟨ht, rfl⟩
      all_goals first
        | rfl
        | exact absurd (hq2.symm.trans ht) (by decide)
        | simp only [Station.rateRecognized, hq2, beq_self_eq_true, Bool.true_or, Bool.or_true,
            Bool.true_eq_false] at ht
    · intro q1 q2 x2 hq hstep
      have hq2 : x2.nla_type ≠ Nl80211RateInfo.RateInfoBitrate32 := ne_of_beq_false hq
      rcases station_txRateStep_ok_effect hstep with
        ⟨ht, rfl⟩ | ⟨ht, rfl⟩
      all_goals first
        | exact absurd ht hq2
        | rfl

/-- C4, witness: a buffer in which IFINDEX appears twice decodes to the
value of the last occurrence. -/
theorem c4_last_wins_witness :
    (⟨some 2, none, none, none, none, none, none, none, none⟩ : Interface).index =
      some (leVal (([2, 0, 0, 0] : List Nat).take 4)) :=
  c4_last_wins.1
    [⟨8, Nl80211Attr.AttrIfindex, [1, 0, 0, 0]⟩, ⟨8, Nl80211Attr.AttrIfindex, [2, 0, 0, 0]⟩]
    ⟨some 2, none, none, none, none, none, none, none, none⟩
    ⟨8, Nl80211Attr.AttrIfindex, [2, 0, 0, 0]⟩ (by decide) (by decide)

end Nl80211

namespace Nl80211

/-- C6, counterexample: `parse_string` strips NUL bytes from *both* ends
(`trim_matches`), not only the trailing padding: on the payload
`[0x00, 0x41]` it returns "A", while the claim's trailing-NUL-only
description (`parse_string_spec`, written from the spec's words) keeps
the leading NUL. -/
theorem c6_counterexample :
    parse_string [0, 65] = "A" ∧
    parse_string_spec [0, 65] = String.mk [Char.ofNat 0, Char.ofNat 65] ∧
    parse_string [0, 65] ≠ parse_string_spec [0, 65] := by
  refine ⟨by decide, by decide, by decide⟩

/-- C6, amended: `parse_string` is total (it is a plain function with no
error or panic outcome), and its result is the payload interpreted as
text with invalid encoding lossily replaced and with both the leading
and the trailing NUL bytes stripped: the lossy decoding splits as a
(maximal) run of leading NULs, the result, and a run of trailing NULs,
and the result neither starts nor ends with a NUL character. -/
theorem c6_parse_string :
    ∀ input : List Nat, ∃ a b,
      utf8Lossy input =
        List.replicate a (Char.ofNat 0) ++ (parse_string input).data ++
          List.replicate b (Char.ofNat 0) ∧
      (parse_string input).data.head? ≠ some (Char.ofNat 0) ∧
      (parse_string input).data.getLast? ≠ some (Char.ofNat 0) := by
  intro input
  exact trim_decomp (Char.ofNat 0) (utf8Lossy input)

/-- C6, witness: the amended theorem applied to the NUL-padded payload
of the string "H". -/
theorem c6_parse_string_witness :
    ∃ a b,
      utf8Lossy [72, 0] =
        List.replicate a (Char.ofNat 0) ++ (parse_string [72, 0]).data ++
          List.replicate b (Char.ofNat 0) ∧
      (parse_string [72, 0]).data.head? ≠ some (Char.ofNat 0) ∧
      (parse_string [72, 0]).data.getLast? ≠ some (Char.ofNat 0) :=
  c6_parse_string [72, 0]

end Nl80211
